import Mathlib

/-!
Shallow embedding of the Alpaca MCP tool adapter (`src/server.py`).

Each MCP tool is modelled as a pure Lean function of its arguments together
with the outcome of the brokerage-SDK call it performs: the SDK outcome is an
`Except String r` value (`.error e` models the SDK raising an exception whose
message text is `e`, `.ok r` models a normal return).  Order-placement tools
additionally return the SDK request object they submitted, as an
`Option` value which is `none` exactly when control returned before the SDK
client was invoked.  Numeric fields are rationals (the adapter performs no
float arithmetic, only comparisons, `abs` and `min`, which are exact).
Python truthiness on optional values (`x if x else None`, `a or 0`) is
modelled explicitly by the `truthy*` helpers.
-/

namespace AlpacaMCP

/-- Modelled from the spec: the uniform response envelope type of
`shared/types.py` (a module of this repository that is not present under
`src/`; `server.py` imports `MCPResponse` and its typed variants from it).
Per section 3 of the specification an envelope carries a success flag, an
optional typed payload and an optional error string. -/
structure MCPResponse (α : Type) where
  success : Bool
  data : Option α
  error : Option String
deriving DecidableEq

/-- Envelope for a successful call: `Response(success=True, data=d)`. -/
def ok {α : Type} (d : α) : MCPResponse α := ⟨true, some d, none⟩

/-- Envelope for a failed call: `Response(success=False, error=e)`. -/
def fail {α : Type} (e : String) : MCPResponse α := ⟨false, none, some e⟩

/-- Python truthiness of an optional numeric field: `None` and `0` are falsy.
Mirrors the source pattern `float(x) if x else None`. -/
def truthyFloat (x : Option ℚ) : Option ℚ :=
  match x with
  | none => none
  | some v => if v = 0 then none else some v

/-- Python `int(x) if x else None` on an optional integer field. -/
def truthyInt (x : Option ℤ) : Option ℤ :=
  match x with
  | none => none
  | some v => if v = 0 then none else some v

/-- Python `str(x) if x else None` on an optional string field: `None` and the
empty string are falsy. -/
def truthyStr (x : Option String) : Option String :=
  match x with
  | none => none
  | some s => if s = "" then none else some s

/-- Python `float(x or 0)`: a falsy value (`None` or `0`) becomes `0`. -/
def orZero (x : Option ℚ) : ℚ :=
  match x with
  | none => 0
  | some v => if v = 0 then 0 else v

/-- Python `x or 0` on an optional count. -/
def orZeroNat (x : Option ℕ) : ℕ :=
  match x with
  | none => 0
  | some v => if v = 0 then 0 else v

/-- An unconditional `float(x)` applied to an optional SDK field: raises a
`TypeError` when the field is `None`. -/
def floatOrRaise (x : Option ℚ) : Except String ℚ :=
  match x with
  | some v => .ok v
  | none => .error "float() argument must be a string or a real number, not NoneType"

/-- Python `str.lower()`, character by character. -/
def pyLower (s : String) : String := ⟨s.data.map Char.toLower⟩

/-- Python `str.upper()`, character by character. -/
def pyUpper (s : String) : String := ⟨s.data.map Char.toUpper⟩

/-- Whitespace recognized by `str.strip()`. -/
def isSpaceChar (c : Char) : Bool := c = ' ' ∨ c = '\t' ∨ c = '\n' ∨ c = '\r'

/-- Python `str.strip()`. -/
def pyStrip (s : String) : String :=
  ⟨((s.data.dropWhile isSpaceChar).reverse.dropWhile isSpaceChar).reverse⟩

/-- Python `str.split(",")`: splits at every comma, keeping empty pieces
(`"".split(",") == [""]`). -/
def pySplitComma (s : String) : List String :=
  (s.data.splitOn ',').map (fun l => ⟨l⟩)

/-- `alpaca.trading.enums.OrderSide`. -/
inductive OrderSide
  | buy
  | sell
deriving DecidableEq

/-- `alpaca.trading.enums.TimeInForce`. -/
inductive TimeInForce
  | gtc
  | day
  | ioc
  | fok
  | cls
  | opg
deriving DecidableEq

/-- `alpaca.trading.enums.PositionIntent`. -/
inductive PositionIntent
  | buy_to_open
  | buy_to_close
  | sell_to_open
  | sell_to_close
deriving DecidableEq

/-- `alpaca.trading.enums.OrderClass`. -/
inductive OrderClass
  | simple
  | bracket
  | oco
  | mleg
deriving DecidableEq

/-- `shared.types.ContractType`. -/
inductive ContractType
  | call
  | put
deriving DecidableEq

/-- `alpaca.trading.enums.ExerciseStyle`. -/
inductive ExerciseStyle
  | american
  | european
deriving DecidableEq

/-- The module-level dictionary `TIME_IN_FORCE_MAP`, as a lookup function
(`dict.get` semantics: `none` for a missing key). -/
def TIME_IN_FORCE_MAP (s : String) : Option TimeInForce :=
  if s = "gtc" then some .gtc
  else if s = "day" then some .day
  else if s = "ioc" then some .ioc
  else if s = "fok" then some .fok
  else if s = "cls" then some .cls
  else if s = "opg" then some .opg
  else none

/-- The module-level dictionary `POSITION_INTENT_MAP`. -/
def POSITION_INTENT_MAP (s : String) : Option PositionIntent :=
  if s = "buy_to_open" then some .buy_to_open
  else if s = "buy_to_close" then some .buy_to_close
  else if s = "sell_to_open" then some .sell_to_open
  else if s = "sell_to_close" then some .sell_to_close
  else none

/-- The side mapping used by every order tool:
`OrderSide.BUY if side.lower() == "buy" else OrderSide.SELL`. -/
def sideFromString (side : String) : OrderSide :=
  if pyLower side = "buy" then .buy else .sell

/-- `TIME_IN_FORCE_MAP.get(time_in_force.lower(), TimeInForce.GTC)`. -/
def tifFromString (time_in_force : String) : TimeInForce :=
  (TIME_IN_FORCE_MAP (pyLower time_in_force)).getD .gtc

/-- Python `x is not None and x <= 0` on an optional rational. -/
def isNonpos (x : Option ℚ) : Bool :=
  match x with
  | none => false
  | some v => decide (v ≤ 0)

/-- `validate_order_params` (src/server.py:80-95): returns an error message if
any provided value is non-positive, `None` otherwise. -/
def validate_order_params (qty limit_price stop_price trail_price : Option ℚ) :
    Option String :=
  if isNonpos qty then some "Quantity must be greater than 0"
  else if isNonpos limit_price then some "Limit price must be greater than 0"
  else if isNonpos stop_price then some "Stop price must be greater than 0"
  else if isNonpos trail_price then some "Trail price must be greater than 0"
  else none

/-- The order object returned by `trading_client.submit_order`,
`get_order_by_id`, `get_orders` and `close_position`; only the attributes the
adapter reads are modelled.  Enum-valued attributes (`side`, `order_type`,
`status`) are modelled by their `.value` string. -/
structure SdkOrder where
  id : String
  symbol : String
  qty : ℚ
  side : String
  order_type : String
  status : String
  submitted_at : String
  filled_at : Option String
  filled_qty : Option ℚ
  filled_avg_price : Option ℚ
  limit_price : Option ℚ
  stop_price : Option ℚ
  trail_percent : Option ℚ
  trail_price : Option ℚ
deriving DecidableEq

/-- `alpaca.trading.requests.OptionLegRequest`. -/
structure OptionLegRequest where
  symbol : String
  ratio_qty : ℚ
  side : OrderSide
  position_intent : PositionIntent
deriving DecidableEq

/-- The nested `take_profit={"limit_price": ...}` sub-object. -/
structure TakeProfitSpec where
  limit_price : ℚ
deriving DecidableEq

/-- The nested `stop_loss={"stop_price": ..., **({"limit_price": ...} if ...)}`
sub-object; the limit price key is present only when the supplied value is
truthy. -/
structure StopLossSpec where
  stop_price : ℚ
  limit_price : Option ℚ
deriving DecidableEq

/-- `alpaca.trading.requests.MarketOrderRequest`, with the keyword arguments
the adapter sets at its various call sites (absent keywords are `none`). -/
structure MarketOrderRequest where
  symbol : String
  qty : ℚ
  side : OrderSide
  time_in_force : TimeInForce
  order_class : Option OrderClass
  take_profit : Option TakeProfitSpec
  stop_loss : Option StopLossSpec
  legs : Option (List OptionLegRequest)
deriving DecidableEq

/-- `alpaca.trading.requests.LimitOrderRequest`. -/
structure LimitOrderRequest where
  symbol : String
  qty : ℚ
  side : OrderSide
  limit_price : Option ℚ
  time_in_force : TimeInForce
  order_class : Option OrderClass
  take_profit : Option TakeProfitSpec
  stop_loss : Option StopLossSpec
  legs : Option (List OptionLegRequest)
deriving DecidableEq

/-- `alpaca.trading.requests.StopOrderRequest`. -/
structure StopOrderRequest where
  symbol : String
  qty : ℚ
  side : OrderSide
  stop_price : ℚ
  time_in_force : TimeInForce
deriving DecidableEq

/-- `alpaca.trading.requests.StopLimitOrderRequest`. -/
structure StopLimitOrderRequest where
  symbol : String
  qty : ℚ
  side : OrderSide
  stop_price : ℚ
  limit_price : ℚ
  time_in_force : TimeInForce
deriving DecidableEq

/-- `alpaca.trading.requests.TrailingStopOrderRequest`. -/
structure TrailingStopOrderRequest where
  symbol : String
  qty : ℚ
  side : OrderSide
  trail_percent : Option ℚ
  trail_price : Option ℚ
  time_in_force : TimeInForce
deriving DecidableEq

/-- Payload dictionary returned by `place_market_order` on success. -/
structure MarketOrderPayload where
  order_id : String
  symbol : String
  qty : ℚ
  side : String
  status : String
deriving DecidableEq

/-- `place_market_order` (src/server.py:320-360). -/
def place_market_order (symbol : String) (qty : ℚ) (side : String)
    (time_in_force : String) (sdk : Except String SdkOrder) :
    MCPResponse MarketOrderPayload × Option MarketOrderRequest :=
  match validate_order_params (some qty) none none none with
  | some error => (fail error, none)
  | none =>
    let order_side := sideFromString side
    let tif := tifFromString time_in_force
    let market_order_data : MarketOrderRequest :=
      { symbol := symbol, qty := qty, side := order_side, time_in_force := tif,
        order_class := none, take_profit := none, stop_loss := none, legs := none }
    match sdk with
    | .error e => (fail e, some market_order_data)
    | .ok order =>
      (ok { order_id := order.id, symbol := order.symbol, qty := order.qty,
            side := order.side, status := order.status },
       some market_order_data)

/-- Payload dictionary returned by `place_limit_order` on success. -/
structure LimitOrderPayload where
  order_id : String
  symbol : String
  qty : ℚ
  side : String
  limit_price : ℚ
  status : String
deriving DecidableEq

/-- `place_limit_order` (src/server.py:362-412). -/
def place_limit_order (symbol : String) (qty : ℚ) (side : String)
    (limit_price : ℚ) (time_in_force : String) (sdk : Except String SdkOrder) :
    MCPResponse LimitOrderPayload × Option LimitOrderRequest :=
  match validate_order_params (some qty) (some limit_price) none none with
  | some error => (fail error, none)
  | none =>
    let order_side := sideFromString side
    let tif := tifFromString time_in_force
    let limit_order_data : LimitOrderRequest :=
      { symbol := symbol, qty := qty, side := order_side,
        limit_price := some limit_price, time_in_force := tif,
        order_class := none, take_profit := none, stop_loss := none, legs := none }
    match sdk with
    | .error e => (fail e, some limit_order_data)
    | .ok order =>
      match floatOrRaise order.limit_price with
      | .error e => (fail e, some limit_order_data)
      | .ok lp =>
        (ok { order_id := order.id, symbol := order.symbol, qty := order.qty,
              side := order.side, limit_price := lp, status := order.status },
         some limit_order_data)

/-- Payload dictionary returned by `place_stop_order` on success. -/
structure StopOrderPayload where
  order_id : String
  symbol : String
  qty : ℚ
  side : String
  stop_price : ℚ
  status : String
deriving DecidableEq

/-- `place_stop_order` (src/server.py:414-492). -/
def place_stop_order (symbol : String) (qty : ℚ) (side : String)
    (stop_price : ℚ) (time_in_force : String) (sdk : Except String SdkOrder) :
    MCPResponse StopOrderPayload × Option StopOrderRequest :=
  match validate_order_params (some qty) none (some stop_price) none with
  | some error => (fail error, none)
  | none =>
    let order_side := sideFromString side
    let tif := tifFromString time_in_force
    let stop_order_data : StopOrderRequest :=
      { symbol := symbol, qty := qty, side := order_side,
        stop_price := stop_price, time_in_force := tif }
    match sdk with
    | .error e => (fail e, some stop_order_data)
    | .ok order =>
      match floatOrRaise order.stop_price with
      | .error e => (fail e, some stop_order_data)
      | .ok sp =>
        (ok { order_id := order.id, symbol := order.symbol, qty := order.qty,
              side := order.side, stop_price := sp, status := order.status },
         some stop_order_data)

/-- Payload dictionary returned by `place_stop_limit_order` on success. -/
structure StopLimitOrderPayload where
  order_id : String
  symbol : String
  qty : ℚ
  side : String
  stop_price : ℚ
  limit_price : ℚ
  status : String
deriving DecidableEq

/-- `place_stop_limit_order` (src/server.py:494-573). -/
def place_stop_limit_order (symbol : String) (qty : ℚ) (side : String)
    (stop_price : ℚ) (limit_price : ℚ) (time_in_force : String)
    (sdk : Except String SdkOrder) :
    MCPResponse StopLimitOrderPayload × Option StopLimitOrderRequest :=
  match validate_order_params (some qty) (some limit_price) (some stop_price) none with
  | some error => (fail error, none)
  | none =>
    let order_side := sideFromString side
    let tif := tifFromString time_in_force
    let stop_limit_order_data : StopLimitOrderRequest :=
      { symbol := symbol, qty := qty, side := order_side,
        stop_price := stop_price, limit_price := limit_price, time_in_force := tif }
    match sdk with
    | .error e => (fail e, some stop_limit_order_data)
    | .ok order =>
      match floatOrRaise order.stop_price with
      | .error e => (fail e, some stop_limit_order_data)
      | .ok sp =>
        match floatOrRaise order.limit_price with
        | .error e => (fail e, some stop_limit_order_data)
        | .ok lp =>
          (ok { order_id := order.id, symbol := order.symbol, qty := order.qty,
                side := order.side, stop_price := sp, limit_price := lp,
                status := order.status },
           some stop_limit_order_data)

/-- Payload dictionary returned by `place_trailing_stop_order` on success. -/
structure TrailingStopPayload where
  order_id : String
  symbol : String
  qty : ℚ
  side : String
  trail_percent : Option ℚ
  trail_price : Option ℚ
  status : String
deriving DecidableEq

/-- `place_trailing_stop_order` (src/server.py:575-643). -/
def place_trailing_stop_order (symbol : String) (qty : ℚ) (side : String)
    (trail_percent trail_price : Option ℚ) (time_in_force : String)
    (sdk : Except String SdkOrder) :
    MCPResponse TrailingStopPayload × Option TrailingStopOrderRequest :=
  match validate_order_params (some qty) none none trail_price with
  | some error => (fail error, none)
  | none =>
    if isNonpos trail_percent then
      (fail "Trail percent must be greater than 0", none)
    else if trail_percent = none ∧ trail_price = none then
      (fail "Either trail_percent or trail_price must be provided", none)
    else if trail_percent ≠ none ∧ trail_price ≠ none then
      (fail "Only one of trail_percent or trail_price can be provided, not both", none)
    else
      let order_side := sideFromString side
      let tif := tifFromString time_in_force
      let trailing_stop_data : TrailingStopOrderRequest :=
        { symbol := symbol, qty := qty, side := order_side,
          trail_percent := trail_percent, trail_price := trail_price,
          time_in_force := tif }
      match sdk with
      | .error e => (fail e, some trailing_stop_data)
      | .ok order =>
        (ok { order_id := order.id, symbol := order.symbol, qty := order.qty,
              side := order.side,
              trail_percent := truthyFloat order.trail_percent,
              trail_price := truthyFloat order.trail_price,
              status := order.status },
         some trailing_stop_data)

/-- Payload dictionary returned by `place_bracket_order` on success. -/
structure BracketOrderPayload where
  order_id : String
  symbol : String
  qty : ℚ
  side : String
  entry_type : String
  entry_limit_price : Option ℚ
  take_profit_limit_price : ℚ
  stop_loss_stop_price : ℚ
  stop_loss_limit_price : Option ℚ
  status : String
  order_class : String
deriving DecidableEq

/-- The request submitted by a tool whose entry order is either a
`MarketOrderRequest` or a `LimitOrderRequest` depending on its arguments. -/
def EntryRequest : Type := MarketOrderRequest ⊕ LimitOrderRequest

instance : DecidableEq EntryRequest :=
  inferInstanceAs (DecidableEq (MarketOrderRequest ⊕ LimitOrderRequest))

/-- The order-level side of an `EntryRequest`. -/
def EntryRequest.side (r : EntryRequest) : OrderSide :=
  match r with
  | .inl m => m.side
  | .inr l => l.side

/-- The aggregate quantity of an `EntryRequest`. -/
def EntryRequest.qty (r : EntryRequest) : ℚ :=
  match r with
  | .inl m => m.qty
  | .inr l => l.qty

/-- `place_bracket_order` (src/server.py:645-778). -/
def place_bracket_order (symbol : String) (qty : ℚ) (side : String)
    (take_profit_limit_price stop_loss_stop_price : ℚ)
    (stop_loss_limit_price : Option ℚ) (entry_type : String)
    (entry_limit_price : Option ℚ) (time_in_force : String)
    (sdk : Except String SdkOrder) :
    MCPResponse BracketOrderPayload × Option EntryRequest :=
  match validate_order_params (some qty) entry_limit_price (some stop_loss_stop_price) none with
  | some error => (fail error, none)
  | none =>
    if take_profit_limit_price ≤ 0 then
      (fail "Take profit limit price must be greater than 0", none)
    else if isNonpos stop_loss_limit_price then
      (fail "Stop loss limit price must be greater than 0", none)
    else if pyLower entry_type = "limit" ∧ entry_limit_price = none then
      (fail "entry_limit_price is required when entry_type is \x27limit\x27", none)
    else
      let order_side := sideFromString side
      let tif := tifFromString time_in_force
      let order_data : EntryRequest :=
        if pyLower entry_type = "market" then
          .inl { symbol := symbol, qty := qty, side := order_side,
                 time_in_force := tif, order_class := some .bracket,
                 take_profit := some ⟨take_profit_limit_price⟩,
                 stop_loss := some ⟨stop_loss_stop_price, truthyFloat stop_loss_limit_price⟩,
                 legs := none }
        else
          .inr { symbol := symbol, qty := qty, side := order_side,
                 limit_price := entry_limit_price, time_in_force := tif,
                 order_class := some .bracket,
                 take_profit := some ⟨take_profit_limit_price⟩,
                 stop_loss := some ⟨stop_loss_stop_price, truthyFloat stop_loss_limit_price⟩,
                 legs := none }
      match sdk with
      | .error e => (fail e, some order_data)
      | .ok order =>
        (ok { order_id := order.id, symbol := order.symbol, qty := order.qty,
              side := order.side, entry_type := entry_type,
              entry_limit_price := entry_limit_price,
              take_profit_limit_price := take_profit_limit_price,
              stop_loss_stop_price := stop_loss_stop_price,
              stop_loss_limit_price := stop_loss_limit_price,
              status := order.status, order_class := "bracket" },
         some order_data)

/-- Payload dictionary returned by `place_oco_order` on success. -/
structure OcoOrderPayload where
  order_id : String
  symbol : String
  qty : ℚ
  side : String
  take_profit_limit_price : ℚ
  stop_loss_stop_price : ℚ
  stop_loss_limit_price : Option ℚ
  status : String
  order_class : String
deriving DecidableEq

/-- `place_oco_order` (src/server.py:780-885). -/
def place_oco_order (symbol : String) (qty : ℚ) (side : String)
    (take_profit_limit_price stop_loss_stop_price : ℚ)
    (stop_loss_limit_price : Option ℚ) (time_in_force : String)
    (sdk : Except String SdkOrder) :
    MCPResponse OcoOrderPayload × Option LimitOrderRequest :=
  match validate_order_params (some qty) none (some stop_loss_stop_price) none with
  | some error => (fail error, none)
  | none =>
    if take_profit_limit_price ≤ 0 then
      (fail "Take profit limit price must be greater than 0", none)
    else if isNonpos stop_loss_limit_price then
      (fail "Stop loss limit price must be greater than 0", none)
    else
      let order_side := sideFromString side
      let tif := tifFromString time_in_force
      let order_data : LimitOrderRequest :=
        { symbol := symbol, qty := qty, side := order_side,
          limit_price := some take_profit_limit_price, time_in_force := tif,
          order_class := some .oco,
          take_profit := some ⟨take_profit_limit_price⟩,
          stop_loss := some ⟨stop_loss_stop_price, truthyFloat stop_loss_limit_price⟩,
          legs := none }
      match sdk with
      | .error e => (fail e, some order_data)
      | .ok order =>
        (ok { order_id := order.id, symbol := order.symbol, qty := order.qty,
              side := order.side,
              take_profit_limit_price := take_profit_limit_price,
              stop_loss_stop_price := stop_loss_stop_price,
              stop_loss_limit_price := stop_loss_limit_price,
              status := order.status, order_class := "oco" },
         some order_data)

/-- Payload carrying only a `message` field. -/
structure MessagePayload where
  message : String
deriving DecidableEq

/-- `cancel_order` (src/server.py:887-904). -/
def cancel_order (order_id : String) (sdk : Except String Unit) :
    MCPResponse MessagePayload :=
  match sdk with
  | .error e => fail e
  | .ok _ => ok { message := "Order " ++ order_id ++ " cancelled successfully" }

/-- The `close_options` dictionary built by `close_position`.  The source
serializes the chosen value with `str(...)` before forwarding it; the numeric
value is kept here. -/
structure CloseOptions where
  qty : Option ℚ
  percentage : Option ℚ
deriving DecidableEq

/-- Payload dictionary returned by `close_position` on success. -/
structure ClosePositionPayload where
  order_id : String
  symbol : String
  qty : ℚ
  side : String
  status : String
  message : String
deriving DecidableEq

/-- `close_position` (src/server.py:906-955).  The second component records
the `close_options` argument of the SDK call (`none` when the SDK client was
not invoked; `some none` when it was invoked with `close_options=None`). -/
def close_position (symbol : String) (qty percentage : Option ℚ)
    (sdk : Except String SdkOrder) :
    MCPResponse ClosePositionPayload × Option (Option CloseOptions) :=
  if qty ≠ none ∧ percentage ≠ none then
    (fail "Only one of qty or percentage can be provided, not both", none)
  else if isNonpos qty then
    (fail "Quantity must be greater than 0", none)
  else if percentage ≠ none ∧ (percentage.getD 0 ≤ 0 ∨ 100 < percentage.getD 0) then
    (fail "Percentage must be between 0 and 100", none)
  else
    let close_options : Option CloseOptions :=
      match qty, percentage with
      | some q, _ => some { qty := some q, percentage := none }
      | none, some p => some { qty := none, percentage := some p }
      | none, none => none
    match sdk with
    | .error e => (fail ("Failed to close position: " ++ e), some close_options)
    | .ok result =>
      (ok { order_id := result.id, symbol := result.symbol, qty := result.qty,
            side := result.side, status := result.status,
            message := "Position close order submitted for " ++ symbol },
       some close_options)

/-- One element of the list returned by `trading_client.close_all_positions`:
an object with a `.body` carrying `symbol`/`id`, an object carrying
`symbol`/`id` directly, or an unrecognized shape (modelled by its `str(...)`
rendering). -/
inductive CloseAllResult
  | withBody (symbol : String) (id : String)
  | bare (symbol : String) (id : String)
  | unknown (rendering : String)
deriving DecidableEq

/-- An entry of the `closed_positions` list. -/
structure ClosedPositionEntry where
  symbol : String
  order_id : String
deriving DecidableEq

/-- Payload dictionary returned by `close_all_positions` on success. -/
structure CloseAllPayload where
  closed_count : ℕ
  failed_count : ℕ
  closed_positions : List ClosedPositionEntry
  failed_positions : List String
  message : String
deriving DecidableEq

/-- The classification loop of `close_all_positions` (src/server.py:973-986):
returns the `closed_positions` and `failed_positions` lists. -/
def classifyCloseResults (results : List CloseAllResult) :
    List ClosedPositionEntry × List String :=
  match results with
  | [] => ([], [])
  | r :: rest =>
    let (closed, failed) := classifyCloseResults rest
    match r with
    | .withBody symbol id => ({ symbol := symbol, order_id := id } :: closed, failed)
    | .bare symbol id => ({ symbol := symbol, order_id := id } :: closed, failed)
    | .unknown s => (closed, s :: failed)

/-- `close_all_positions` (src/server.py:957-1000). -/
def close_all_positions (cancel_orders : Bool)
    (sdk : Except String (List CloseAllResult)) : MCPResponse CloseAllPayload :=
  match sdk with
  | .error e => fail ("Failed to close all positions: " ++ e)
  | .ok results =>
    let (closed_positions, failed_positions) := classifyCloseResults results
    ok { closed_count := closed_positions.length,
         failed_count := failed_positions.length,
         closed_positions := closed_positions,
         failed_positions := failed_positions,
         message := "Closed " ++ toString closed_positions.length ++ " positions" ++
           (if failed_positions ≠ [] then
              ", " ++ toString failed_positions.length ++ " failed"
            else "") }

/-- The account object returned by `trading_client.get_account`; only the
attributes the adapter reads are modelled. -/
structure SdkAccount where
  id : String
  cash : ℚ
  buying_power : ℚ
  portfolio_value : ℚ
  equity : ℚ
  long_market_value : Option ℚ
  short_market_value : Option ℚ
  initial_margin : Option ℚ
  maintenance_margin : Option ℚ
  last_equity : ℚ
  daytrade_count : Option ℕ
deriving DecidableEq

/-- `shared.types.AccountInfo`. -/
structure AccountInfo where
  account_id : String
  cash : ℚ
  buying_power : ℚ
  portfolio_value : ℚ
  equity : ℚ
  long_market_value : ℚ
  short_market_value : ℚ
  initial_margin : ℚ
  maintenance_margin : ℚ
  last_equity : ℚ
  daytrade_count : ℕ
deriving DecidableEq

/-- `get_account_info` (src/server.py:178-202). -/
def get_account_info (sdk : Except String SdkAccount) : MCPResponse AccountInfo :=
  match sdk with
  | .error e => fail e
  | .ok account =>
    ok { account_id := account.id, cash := account.cash,
         buying_power := account.buying_power,
         portfolio_value := account.portfolio_value, equity := account.equity,
         long_market_value := orZero account.long_market_value,
         short_market_value := orZero account.short_market_value,
         initial_margin := orZero account.initial_margin,
         maintenance_margin := orZero account.maintenance_margin,
         last_equity := account.last_equity,
         daytrade_count := orZeroNat account.daytrade_count }

/-- A position object returned by `trading_client.get_all_positions`; only the
attributes the adapter reads are modelled.  `side` is the `.value` string of
the SDK enum. -/
structure SdkPosition where
  symbol : String
  qty : ℚ
  side : String
  market_value : ℚ
  cost_basis : ℚ
  unrealized_pl : ℚ
  unrealized_plpc : ℚ
  current_price : Option ℚ
  qty_available : Option ℚ
  asset_class : Option String
deriving DecidableEq

/-- `shared.types.Position`. -/
structure Position where
  symbol : String
  quantity : ℚ
  side : String
  market_value : ℚ
  cost_basis : ℚ
  unrealized_pl : ℚ
  unrealized_plpc : ℚ
  current_price : ℚ
  qty_available : Option ℚ
deriving DecidableEq

/-- The per-item conversion of the `get_positions` loop (src/server.py:212-226);
`float(pos.current_price)` is an unconditional read. -/
def positionOfSdk (pos : SdkPosition) : Except String Position :=
  match floatOrRaise pos.current_price with
  | .error e => .error e
  | .ok current_price =>
    .ok { symbol := pos.symbol, quantity := pos.qty, side := pos.side,
          market_value := pos.market_value, cost_basis := pos.cost_basis,
          unrealized_pl := pos.unrealized_pl,
          unrealized_plpc := pos.unrealized_plpc,
          current_price := current_price,
          qty_available := truthyFloat pos.qty_available }

/-- `get_positions` (src/server.py:204-231). -/
def get_positions (sdk : Except String (List SdkPosition)) :
    MCPResponse (List Position) :=
  match sdk with
  | .error e => fail e
  | .ok positions =>
    match positions.mapM positionOfSdk with
    | .error e => fail e
    | .ok position_data => ok position_data

/-- `alpaca.trading.requests.GetOrdersRequest`. -/
structure GetOrdersRequest where
  status : Option String
  limit : ℤ
  symbols : Option (List String)
deriving DecidableEq

/-- `shared.types.Order`. -/
structure Order where
  id : String
  symbol : String
  qty : ℚ
  side : String
  order_type : String
  status : String
  submitted_at : String
  filled_at : Option String
  filled_qty : Option ℚ
  filled_avg_price : Option ℚ
  limit_price : Option ℚ
  stop_price : Option ℚ
deriving DecidableEq

/-- The per-item conversion shared by `get_orders` (src/server.py:257-282) and
`get_order` (src/server.py:300-313). -/
def orderOfSdk (order : SdkOrder) : Order :=
  { id := order.id, symbol := order.symbol, qty := order.qty,
    side := order.side, order_type := order.order_type, status := order.status,
    submitted_at := order.submitted_at, filled_at := order.filled_at,
    filled_qty := truthyFloat order.filled_qty,
    filled_avg_price := truthyFloat order.filled_avg_price,
    limit_price := truthyFloat order.limit_price,
    stop_price := truthyFloat order.stop_price }

/-- `get_orders` (src/server.py:233-287).  `symbols.split(",") if symbols else
None`: an absent or empty string yields no symbol filter. -/
def get_orders (status : Option String) (limit : ℤ) (symbols : Option String)
    (sdk : Except String (List SdkOrder)) :
    MCPResponse (List Order) × GetOrdersRequest :=
  let symbol_list : Option (List String) :=
    match truthyStr symbols with
    | none => none
    | some s => some (pySplitComma s)
  let request : GetOrdersRequest :=
    { status := status, limit := limit, symbols := symbol_list }
  match sdk with
  | .error e => (fail e, request)
  | .ok orders => (ok (orders.map orderOfSdk), request)

/-- `get_order` (src/server.py:289-318). -/
def get_order (order_id : String) (sdk : Except String SdkOrder) :
    MCPResponse Order :=
  match sdk with
  | .error e => fail ("Order not found or error: " ++ e)
  | .ok order => ok (orderOfSdk order)

/-- A quote object returned by `data_client.get_stock_latest_quote`. -/
structure SdkQuote where
  bid_price : Option ℚ
  ask_price : Option ℚ
  bid_size : Option ℤ
  ask_size : Option ℤ
  timestamp : String
deriving DecidableEq

/-- `shared.types.QuoteData`. -/
structure QuoteData where
  symbol : String
  bid_price : Option ℚ
  ask_price : Option ℚ
  bid_size : Option ℤ
  ask_size : Option ℤ
  timestamp : String
deriving DecidableEq

/-- The symbol-list normalization shared by the market-data tools:
`[s.strip().upper() for s in symbols.split(",")]`. -/
def splitSymbols (symbols : String) : List String :=
  (pySplitComma symbols).map (fun s => pyUpper (pyStrip s))

/-- `alpaca.data.requests.StockLatestQuoteRequest`. -/
structure StockLatestQuoteRequest where
  symbol_or_symbols : List String
deriving DecidableEq

/-- The per-item conversion of the `get_latest_quotes` loop
(src/server.py:1016-1025); the SDK returns a dictionary, modelled as a list of
(symbol, quote) pairs. -/
def quoteOfSdk (symbol : String) (quote : SdkQuote) : QuoteData :=
  { symbol := symbol,
    bid_price := truthyFloat quote.bid_price,
    ask_price := truthyFloat quote.ask_price,
    bid_size := truthyInt quote.bid_size,
    ask_size := truthyInt quote.ask_size,
    timestamp := quote.timestamp }

/-- `get_latest_quotes` (src/server.py:1002-1029). -/
def get_latest_quotes (symbols : String)
    (sdk : Except String (List (String × SdkQuote))) :
    MCPResponse (List QuoteData) × StockLatestQuoteRequest :=
  let symbol_list := splitSymbols symbols
  let request : StockLatestQuoteRequest := { symbol_or_symbols := symbol_list }
  match sdk with
  | .error e => (fail e, request)
  | .ok quotes => (ok (quotes.map (fun p => quoteOfSdk p.1 p.2)), request)

/-- `alpaca.data.timeframe.TimeFrame` values used by the adapter. -/
inductive TimeFrame
  | minute (amount : ℕ)
  | hour
  | day
  | week
  | month
deriving DecidableEq

/-- The `timeframe_map` lookup of `get_stock_bars` (src/server.py:1052-1063),
with its `TimeFrame.Day` default. -/
def timeframeFromString (timeframe : String) : TimeFrame :=
  if timeframe = "1Min" then .minute 1
  else if timeframe = "5Min" then .minute 5
  else if timeframe = "15Min" then .minute 15
  else if timeframe = "30Min" then .minute 30
  else if timeframe = "1Hour" then .hour
  else if timeframe = "1Day" then .day
  else if timeframe = "1Week" then .week
  else if timeframe = "1Month" then .month
  else .day

/-- `alpaca.data.requests.StockBarsRequest`.  The `datetime.fromisoformat`
parse of the optional date strings is kept textual. -/
structure StockBarsRequest where
  symbol_or_symbols : List String
  timeframe : TimeFrame
  start : Option String
  end_ : Option String
  limit : ℤ
deriving DecidableEq

/-- A bar object inside the `BarSet.data` dictionary. -/
structure SdkBar where
  timestamp : String
  open_ : ℚ
  high : ℚ
  low : ℚ
  close : ℚ
  volume : ℤ
  trade_count : Option ℤ
  vwap : Option ℚ
deriving DecidableEq

/-- `shared.types.BarData`. -/
structure BarData where
  symbol : String
  timestamp : String
  open_ : ℚ
  high : ℚ
  low : ℚ
  close : ℚ
  volume : ℤ
  trade_count : Option ℤ
  vwap : Option ℚ
deriving DecidableEq

/-- The per-bar conversion of the `get_stock_bars` loop
(src/server.py:1082-1097). -/
def barOfSdk (symbol : String) (bar : SdkBar) : BarData :=
  { symbol := symbol, timestamp := bar.timestamp, open_ := bar.open_,
    high := bar.high, low := bar.low, close := bar.close,
    volume := bar.volume, trade_count := truthyInt bar.trade_count,
    vwap := truthyFloat bar.vwap }

/-- `get_stock_bars` (src/server.py:1031-1101).  The SDK `BarSet.data`
dictionary is modelled as a list of (symbol, bars) pairs. -/
def get_stock_bars (symbols timeframe : String) (start end_ : Option String)
    (limit : ℤ) (sdk : Except String (List (String × List SdkBar))) :
    MCPResponse (List BarData) × StockBarsRequest :=
  let symbol_list := splitSymbols symbols
  let tf := timeframeFromString timeframe
  let request : StockBarsRequest :=
    { symbol_or_symbols := symbol_list, timeframe := tf,
      start := truthyStr start, end_ := truthyStr end_, limit := limit }
  match sdk with
  | .error e => (fail e, request)
  | .ok bars =>
    (ok (bars.flatMap (fun p => p.2.map (barOfSdk p.1))), request)

/-- The object returned by `trading_client.get_portfolio_history`. -/
structure SdkHistory where
  timestamp : List ℤ
  equity : List ℚ
  profit_loss : List ℚ
  profit_loss_pct : List ℚ
deriving DecidableEq

/-- One entry of the `get_portfolio_history` payload list. -/
structure PortfolioHistoryEntry where
  timestamp : ℤ
  equity : Option ℚ
  profit_loss : Option ℚ
  profit_loss_pct : Option ℚ
deriving DecidableEq

/-- `get_portfolio_history` (src/server.py:1103-1147).  The index-guarded
reads `history.equity[i] if i < len(...) else None` are `List.get?`. -/
def get_portfolio_history (period timeframe : String) (extended_hours : Bool)
    (sdk : Except String SdkHistory) :
    MCPResponse (List PortfolioHistoryEntry) :=
  match sdk with
  | .error e => fail e
  | .ok history =>
    ok ((history.timestamp.enum.map (fun p =>
      { timestamp := p.2,
        equity := history.equity.get? p.1,
        profit_loss := history.profit_loss.get? p.1,
        profit_loss_pct := history.profit_loss_pct.get? p.1 })))

/-- The attribute/key set read by `parse_option_contract` from a contract
object or dictionary (the two branches read the same fields, via `getattr`
with a default or `dict.get`). -/
structure SdkContractFields where
  symbol : String
  underlying_symbol : String
  name : Option String
  status : Option String
  tradable : Option Bool
  expiration_date : Option String
  root_symbol : Option String
  underlying_asset_id : Option String
  type : Option String
  style : Option String
  strike_price : Option String
  multiplier : Option String
  size : Option String
  open_interest : Option String
  open_interest_date : Option String
  close_price : Option String
  close_price_date : Option String
deriving DecidableEq

/-- The shapes `parse_option_contract` dispatches on: an object with a
`symbol` attribute, a plain dictionary, or anything else. -/
inductive SdkContract
  | obj (fields : SdkContractFields)
  | dict (fields : SdkContractFields)
  | other
deriving DecidableEq

/-- `shared.types.OptionContract`. -/
structure OptionContract where
  symbol : String
  underlying_symbol : String
  name : Option String
  status : Option String
  tradable : Option Bool
  expiration_date : Option String
  root_symbol : Option String
  underlying_asset_id : Option String
  type : Option String
  style : Option String
  strike_price : Option String
  multiplier : Option String
  size : Option String
  open_interest : Option String
  open_interest_date : Option String
  close_price : Option String
  close_price_date : Option String
deriving DecidableEq

/-- The field-by-field construction shared by both branches of
`parse_option_contract` (src/server.py:100-139): `str(x) if x else None`
patterns become `truthyStr`; `tradable`, `type`, `style` and `open_interest`
are read without the truthiness guard. -/
def contractFromFields (f : SdkContractFields) : OptionContract :=
  { symbol := f.symbol, underlying_symbol := f.underlying_symbol,
    name := truthyStr f.name, status := truthyStr f.status,
    tradable := f.tradable,
    expiration_date := truthyStr f.expiration_date,
    root_symbol := truthyStr f.root_symbol,
    underlying_asset_id := truthyStr f.underlying_asset_id,
    type := f.type, style := f.style,
    strike_price := truthyStr f.strike_price,
    multiplier := truthyStr f.multiplier, size := truthyStr f.size,
    open_interest := f.open_interest,
    open_interest_date := truthyStr f.open_interest_date,
    close_price := truthyStr f.close_price,
    close_price_date := truthyStr f.close_price_date }

/-- `parse_option_contract` (src/server.py:98-140). -/
def parse_option_contract (contract : SdkContract) : Option OptionContract :=
  match contract with
  | .obj f => some (contractFromFields f)
  | .dict f => some (contractFromFields f)
  | .other => none

/-- `alpaca.trading.requests.GetOptionContractsRequest`, built from the sparse
`request_params` dictionary: an outer `none` models an absent keyword; for
`type` and `style` the inner `Option` is the value (the source stores the
result of `dict.get`, which is `None` for an unrecognized string). -/
structure GetOptionContractsRequest where
  limit : ℤ
  underlying_symbols : Option (List String)
  expiration_date : Option String
  expiration_date_gte : Option String
  expiration_date_lte : Option String
  root_symbol : Option String
  type : Option (Option ContractType)
  style : Option (Option ExerciseStyle)
  strike_price_gte : Option String
  strike_price_lte : Option String
deriving DecidableEq

/-- The `contract_type_map` of `get_option_contracts` (src/server.py:1196-1200). -/
def contract_type_map (s : String) : Option ContractType :=
  if s = "call" then some .call
  else if s = "put" then some .put
  else none

/-- The `style_map` of `get_option_contracts` (src/server.py:1203-1207). -/
def style_map (s : String) : Option ExerciseStyle :=
  if s = "american" then some .american
  else if s = "european" then some .european
  else none

/-- The response shapes dispatched on by `get_option_contracts`
(src/server.py:1217-1228): an object with an `option_contracts` attribute, a
tuple (whose first element is the contract list), a bare list, or anything
else. -/
inductive ContractsResponse
  | withAttr (option_contracts : List SdkContract)
  | tup (elements : List (List SdkContract))
  | bareList (contracts : List SdkContract)
  | other
deriving DecidableEq

/-- The dispatch itself: `contracts = response.option_contracts` /
`response[0] if response else []` / `response` / `[]`. -/
def contractsOfResponse (response : ContractsResponse) : List SdkContract :=
  match response with
  | .withAttr cs => cs
  | .tup [] => []
  | .tup (c :: _) => c
  | .bareList cs => cs
  | .other => []

/-- `get_option_contracts` (src/server.py:1149-1238).  The second component is
the request forwarded to the SDK (built before the call, inside the `try`). -/
def get_option_contracts (underlying_symbols expiration_date
    expiration_date_gte expiration_date_lte root_symbol contract_type
    style strike_price_gte strike_price_lte : Option String) (limit : ℤ)
    (sdk : Except String ContractsResponse) :
    MCPResponse (List OptionContract) × GetOptionContractsRequest :=
  let symbol_list : Option (List String) :=
    match truthyStr underlying_symbols with
    | none => none
    | some s => some (splitSymbols s)
  let request : GetOptionContractsRequest :=
    { limit := min limit 1000,
      underlying_symbols :=
        match symbol_list with
        | some l => if l ≠ [] then some l else none
        | none => none,
      expiration_date := truthyStr expiration_date,
      expiration_date_gte := truthyStr expiration_date_gte,
      expiration_date_lte := truthyStr expiration_date_lte,
      root_symbol := truthyStr root_symbol,
      type :=
        match truthyStr contract_type with
        | some s => some (contract_type_map (pyLower s))
        | none => none,
      style :=
        match truthyStr style with
        | some s => some (style_map (pyLower s))
        | none => none,
      strike_price_gte := truthyStr strike_price_gte,
      strike_price_lte := truthyStr strike_price_lte }
  match sdk with
  | .error e => (fail e, request)
  | .ok response =>
    let contracts := contractsOfResponse response
    (ok (contracts.filterMap parse_option_contract), request)

/-- The response shapes dispatched on by `get_option_contract`
(src/server.py:1250-1258): an object with an `option_contracts` list, a
tuple of contracts, or the contract itself (possibly `None`). -/
inductive SingleContractResponse
  | withAttr (option_contracts : List SdkContract)
  | tup (elements : List SdkContract)
  | direct (contract : Option SdkContract)
deriving DecidableEq

/-- `get_option_contract` (src/server.py:1240-1269). -/
def get_option_contract (symbol : String)
    (sdk : Except String SingleContractResponse) :
    MCPResponse (List OptionContract) :=
  match sdk with
  | .error e => fail e
  | .ok response =>
    let contract : Option SdkContract :=
      match response with
      | .withAttr cs => cs.head?
      | .tup es => es.head?
      | .direct c => c
    match contract with
    | none => fail ("No contract found for " ++ symbol)
    | some c =>
      match parse_option_contract c with
      | none => fail "Unknown contract data structure"
      | some option_contract => ok [option_contract]

/-- `shared.types.OptionPosition`. -/
structure OptionPosition where
  symbol : String
  quantity : ℚ
  side : String
  market_value : ℚ
  cost_basis : ℚ
  unrealized_pl : ℚ
  unrealized_plpc : ℚ
  current_price : Option ℚ
  contract_type : Option ContractType
  strike_price : Option String
  expiration_date : Option String
deriving DecidableEq

/-- Substring test, modelling Python `needle in haystack`. -/
def strContains (haystack needle : String) : Bool :=
  decide (needle.data <:+: haystack.data)

/-- The option filter of `get_option_positions` (src/server.py:1280-1284):
`asset_class == "us_option" or (asset_class and "option" in
str(asset_class).lower())`. -/
def isOptionAssetClass (asset_class : Option String) : Bool :=
  asset_class = some "us_option" ∨
    (truthyStr asset_class ≠ none ∧
      strContains (pyLower (asset_class.getD "")) "option")

/-- The OCC-suffix decoding of `get_option_positions`
(src/server.py:1287-1294): for a symbol of length at least 15, the character
9 places from the end (`symbol[-9:-8]`) selects call/put. -/
def contractTypeFromSymbol (symbol : String) : Option ContractType :=
  if symbol.length ≥ 15 then
    match (if symbol.length > 9 then symbol.data.get? (symbol.length - 9) else none) with
    | some c => if c = 'C' then some .call else if c = 'P' then some .put else none
    | none => none
  else none

/-- The per-item conversion of the `get_option_positions` loop
(src/server.py:1296-1308). -/
def optionPositionOfSdk (pos : SdkPosition) : OptionPosition :=
  { symbol := pos.symbol, quantity := pos.qty, side := pos.side,
    market_value := pos.market_value, cost_basis := pos.cost_basis,
    unrealized_pl := pos.unrealized_pl, unrealized_plpc := pos.unrealized_plpc,
    current_price := truthyFloat pos.current_price,
    contract_type := contractTypeFromSymbol pos.symbol,
    strike_price := none, expiration_date := none }

/-- `get_option_positions` (src/server.py:1271-1313). -/
def get_option_positions (sdk : Except String (List SdkPosition)) :
    MCPResponse (List OptionPosition) :=
  match sdk with
  | .error e => fail e
  | .ok positions =>
    ok ((positions.filter (fun pos => isOptionAssetClass pos.asset_class)).map
      optionPositionOfSdk)

/-- Payload dictionary returned by `place_option_order` on success. -/
structure OptionOrderPayload where
  order_id : String
  symbol : String
  qty : ℚ
  side : String
  order_type : String
  status : String
  limit_price : Option ℚ
deriving DecidableEq

/-- The shared tail of `place_option_order` after `order_data` is built
(src/server.py:1383-1396): submit the request and render the payload. -/
def submitOptionOrder (order_data : EntryRequest)
    (sdk : Except String SdkOrder) :
    MCPResponse OptionOrderPayload × Option EntryRequest :=
  match sdk with
  | .error e => (fail e, some order_data)
  | .ok order =>
    (ok { order_id := order.id, symbol := order.symbol, qty := order.qty,
          side := order.side, order_type := order.order_type,
          status := order.status,
          limit_price := truthyFloat order.limit_price },
     some order_data)

/-- `place_option_order` (src/server.py:1315-1398).  The second component is
the submitted request: `none` when the SDK client was not invoked.  Note the
tool performs no positivity validation on `qty` or `limit_price`. -/
def place_option_order (symbol : String) (qty : ℚ) (side : String)
    (position_intent : String) (order_type : String) (limit_price : Option ℚ)
    (time_in_force : String) (sdk : Except String SdkOrder) :
    MCPResponse OptionOrderPayload × Option EntryRequest :=
  let order_side := sideFromString side
  let tif := tifFromString time_in_force
  match POSITION_INTENT_MAP (pyLower position_intent) with
  | none =>
    (fail ("Invalid position_intent: " ++ position_intent ++
      ". Must be one of: buy_to_open, buy_to_close, sell_to_open, sell_to_close"),
     none)
  | some intent =>
    let option_leg : OptionLegRequest :=
      { symbol := symbol, ratio_qty := 1, side := order_side,
        position_intent := intent }
    if pyLower order_type = "market" then
      submitOptionOrder
        (.inl { symbol := symbol, qty := qty, side := order_side,
                time_in_force := tif, order_class := some .simple,
                take_profit := none, stop_loss := none,
                legs := some [option_leg] }) sdk
    else if pyLower order_type = "limit" then
      match limit_price with
      | none => (fail "Limit price required for limit orders", none)
      | some lp =>
        submitOptionOrder
          (.inr { symbol := symbol, qty := qty, side := order_side,
                  limit_price := some lp, time_in_force := tif,
                  order_class := some .simple, take_profit := none,
                  stop_loss := none, legs := some [option_leg] }) sdk
    else
      (fail ("Unsupported order type: " ++ order_type), none)

/-- One input leg dictionary of `place_multi_leg_option_order`; a missing
`position_intent` key (`leg.get("position_intent", "")`) is the empty
string. -/
structure LegInput where
  symbol : String
  ratio_qty : ℚ
  side : String
  position_intent : String
deriving DecidableEq

/-- The leg-building loop of `place_multi_leg_option_order`
(src/server.py:1428-1445): builds one `OptionLegRequest` per input leg, or
stops at the first leg (0-based index `i`) whose position-intent string does
not resolve, reporting that index and the offending string. -/
def buildLegs (legs : List LegInput) (i : ℕ) :
    Except (ℕ × String) (List OptionLegRequest) :=
  match legs with
  | [] => .ok []
  | leg :: rest =>
    match POSITION_INTENT_MAP (pyLower leg.position_intent) with
    | none => .error (i, leg.position_intent)
    | some intent =>
      let option_leg : OptionLegRequest :=
        { symbol := leg.symbol, ratio_qty := leg.ratio_qty,
          side := sideFromString leg.side, position_intent := intent }
      match buildLegs rest (i + 1) with
      | .error e => .error e
      | .ok option_legs => .ok (option_leg :: option_legs)

/-- Payload dictionary returned by `place_multi_leg_option_order` on
success. -/
structure MultiLegPayload where
  order_id : String
  symbol : String
  qty : ℚ
  side : String
  order_type : String
  order_class : String
  status : String
  limit_price : Option ℚ
  legs : ℕ
deriving DecidableEq

/-- The shared tail of `place_multi_leg_option_order` after `order_data` is
built (src/server.py:1479-1494). -/
def submitMultiLegOrder (order_data : EntryRequest) (option_legs : List OptionLegRequest)
    (sdk : Except String SdkOrder) :
    MCPResponse MultiLegPayload × Option EntryRequest :=
  match sdk with
  | .error e => (fail e, some order_data)
  | .ok order =>
    (ok { order_id := order.id, symbol := order.symbol, qty := order.qty,
          side := order.side, order_type := order.order_type,
          order_class := "multi_leg", status := order.status,
          limit_price := truthyFloat order.limit_price,
          legs := option_legs.length },
     some order_data)

/-- `place_multi_leg_option_order` (src/server.py:1400-1496).  The aggregate
quantity is `abs(legs[0]["ratio_qty"])` and the order-level side is fixed to
`OrderSide.BUY`. -/
def place_multi_leg_option_order (legs : List LegInput) (order_type : String)
    (limit_price : Option ℚ) (time_in_force : String)
    (sdk : Except String SdkOrder) :
    MCPResponse MultiLegPayload × Option EntryRequest :=
  match legs with
  | [] => (fail "At least one leg is required", none)
  | leg0 :: rest =>
    let tif := tifFromString time_in_force
    match buildLegs (leg0 :: rest) 0 with
    | .error (i, pi) =>
      (fail ("Invalid position_intent in leg " ++ toString i ++ ": " ++ pi ++
        ". Must be one of: buy_to_open, buy_to_close, sell_to_open, sell_to_close"),
       none)
    | .ok option_legs =>
      let primary_symbol := leg0.symbol
      let total_qty := |leg0.ratio_qty|
      if pyLower order_type = "market" then
        submitMultiLegOrder
          (.inl { symbol := primary_symbol, qty := total_qty,
                  side := OrderSide.buy, time_in_force := tif,
                  order_class := some .mleg, take_profit := none,
                  stop_loss := none, legs := some option_legs })
          option_legs sdk
      else if pyLower order_type = "limit" then
        match limit_price with
        | none => (fail "Limit price required for limit orders", none)
        | some lp =>
          submitMultiLegOrder
            (.inr { symbol := primary_symbol, qty := total_qty,
                    side := OrderSide.buy, limit_price := some lp,
                    time_in_force := tif, order_class := some .mleg,
                    take_profit := none, stop_loss := none,
                    legs := some option_legs })
            option_legs sdk
      else
        (fail ("Unsupported order type: " ++ order_type), none)

/-- Payload dictionary returned by `exercise_option_position` on success. -/
structure ExercisePayload where
  symbol : String
  exercised_qty : ℚ
  message : String
deriving DecidableEq

/-- `exercise_option_position` (src/server.py:1498-1540).  Two SDK calls:
`get_all_positions` (first outcome) then `exercise_options_position` (second
outcome, reached only when a position with the requested symbol exists). -/
def exercise_option_position (symbol : String) (qty : Option ℚ)
    (sdkPositions : Except String (List SdkPosition))
    (sdkExercise : Except String Unit) : MCPResponse ExercisePayload :=
  match sdkPositions with
  | .error e => fail e
  | .ok positions =>
    match positions.find? (fun pos => pos.symbol = symbol) with
    | none => fail ("No position found for " ++ symbol)
    | some option_position =>
      let exercise_qty :=
        match qty with
        | some q => q
        | none => option_position.qty
      match sdkExercise with
      | .error e => fail e
      | .ok _ =>
        ok { symbol := symbol, exercised_qty := exercise_qty,
             message := "Successfully exercised " ++ toString exercise_qty ++
               " contracts of " ++ symbol }

/-! ### Verification infrastructure -/

/-- `s` contains `sub` as a substring, witnessed by a decomposition. -/
def containsStr (s sub : String) : Prop := ∃ pre post, s = pre ++ sub ++ post

theorem containsStr_refl (s : String) : containsStr s s := ⟨"", "", by simp⟩

theorem containsStr_append_left (p s : String) : containsStr (p ++ s) s :=
  ⟨p, "", by simp⟩

/-- The envelope is a failure whose error text contains `e`. -/
def failsWith {α : Type} (r : MCPResponse α) (e : String) : Prop :=
  r.success = false ∧ ∃ s, r.error = some s ∧ containsStr s e

theorem failsWith_fail {α : Type} {s e : String} (h : containsStr s e) :
    failsWith (fail (α := α) s) e := ⟨rfl, s, rfl, h⟩

theorem failsWith_fail_refl {α : Type} (e : String) :
    failsWith (fail (α := α) e) e := failsWith_fail (containsStr_refl e)

/-- Every return site of a tool is one of the two envelope shapes. -/
def okOrFail {α : Type} (r : MCPResponse α) : Prop :=
  (∃ d, r = ok d) ∨ (∃ e, r = fail e)

/-- `okOrFail` entails the success/error pairing of the envelope invariant. -/
theorem envelope_pairing {α : Type} {r : MCPResponse α} (h : okOrFail r) :
    (r.success = true → r.data.isSome = true ∧ r.error = none) ∧
    (r.success = false → r.data = none ∧ ∃ e, r.error = some e) := by
  rcases h with ⟨d, rfl⟩ | ⟨e, rfl⟩ <;> simp [ok, fail]

theorem isNonpos_eq_false_of_pos {v : ℚ} (h : 0 < v) :
    isNonpos (some v) = false := by
  simp [isNonpos, h.not_le]

theorem isNonpos_some_of_nonpos {v : ℚ} (h : v ≤ 0) :
    isNonpos (some v) = true := by
  simp [isNonpos, h]

theorem validate_order_params_eq_none_iff {q lp sp tp : Option ℚ} :
    validate_order_params q lp sp tp = none ↔
      isNonpos q = false ∧ isNonpos lp = false ∧ isNonpos sp = false ∧
        isNonpos tp = false := by
  unfold validate_order_params
  repeat' split <;> simp_all

/-- Every message produced by `validate_order_params` contains
"greater than 0". -/
theorem validate_order_params_contains_gt0 {q lp sp tp : Option ℚ} {s : String}
    (h : validate_order_params q lp sp tp = some s) :
    containsStr s "greater than 0" := by
  unfold validate_order_params at h
  repeat' split at h
  all_goals
    first
      | exact Option.noConfusion h
      | (injection h with h; subst h;
         first
           | exact ⟨"Quantity must be ", "", by decide⟩
           | exact ⟨"Limit price must be ", "", by decide⟩
           | exact ⟨"Stop price must be ", "", by decide⟩
           | exact ⟨"Trail price must be ", "", by decide⟩)

/-! ### Envelope shape of every tool -/

theorem get_account_info_shape (sdk : Except String SdkAccount) :
    okOrFail (get_account_info sdk) := by
  unfold get_account_info
  repeat' split
  all_goals first | exact .inl ⟨_, rfl⟩ | exact .inr ⟨_, rfl⟩

theorem get_positions_shape (sdk : Except String (List SdkPosition)) :
    okOrFail (get_positions sdk) := by
  unfold get_positions
  repeat' split
  all_goals first | exact .inl ⟨_, rfl⟩ | exact .inr ⟨_, rfl⟩

theorem get_orders_shape (status : Option String) (limit : ℤ)
    (symbols : Option String) (sdk : Except String (List SdkOrder)) :
    okOrFail (get_orders status limit symbols sdk).1 := by
  unfold get_orders
  repeat' split
  all_goals first | exact .inl ⟨_, rfl⟩ | exact .inr ⟨_, rfl⟩

theorem get_order_shape (order_id : String) (sdk : Except String SdkOrder) :
    okOrFail (get_order order_id sdk) := by
  unfold get_order
  repeat' split
  all_goals first | exact .inl ⟨_, rfl⟩ | exact .inr ⟨_, rfl⟩

theorem place_market_order_shape (symbol : String) (qty : ℚ)
    (side time_in_force : String) (sdk : Except String SdkOrder) :
    okOrFail (place_market_order symbol qty side time_in_force sdk).1 := by
  unfold place_market_order
  repeat' split
  all_goals first | exact .inl ⟨_, rfl⟩ | exact .inr ⟨_, rfl⟩

theorem place_limit_order_shape (symbol : String) (qty : ℚ) (side : String)
    (limit_price : ℚ) (time_in_force : String) (sdk : Except String SdkOrder) :
    okOrFail (place_limit_order symbol qty side limit_price time_in_force sdk).1 := by
  unfold place_limit_order
  repeat' split
  all_goals first | exact .inl ⟨_, rfl⟩ | exact .inr ⟨_, rfl⟩

theorem place_stop_order_shape (symbol : String) (qty : ℚ) (side : String)
    (stop_price : ℚ) (time_in_force : String) (sdk : Except String SdkOrder) :
    okOrFail (place_stop_order symbol qty side stop_price time_in_force sdk).1 := by
  unfold place_stop_order
  repeat' split
  all_goals first | exact .inl ⟨_, rfl⟩ | exact .inr ⟨_, rfl⟩

theorem place_stop_limit_order_shape (symbol : String) (qty : ℚ) (side : String)
    (stop_price limit_price : ℚ) (time_in_force : String)
    (sdk : Except String SdkOrder) :
    okOrFail (place_stop_limit_order symbol qty side stop_price limit_price
      time_in_force sdk).1 := by
  unfold place_stop_limit_order
  repeat' split
  all_goals first | exact .inl ⟨_, rfl⟩ | exact .inr ⟨_, rfl⟩

theorem place_trailing_stop_order_shape (symbol : String) (qty : ℚ)
    (side : String) (trail_percent trail_price : Option ℚ)
    (time_in_force : String) (sdk : Except String SdkOrder) :
    okOrFail (place_trailing_stop_order symbol qty side trail_percent
      trail_price time_in_force sdk).1 := by
  unfold place_trailing_stop_order
  repeat' split
  all_goals first | exact .inl ⟨_, rfl⟩ | exact .inr ⟨_, rfl⟩

theorem place_bracket_order_shape (symbol : String) (qty : ℚ) (side : String)
    (take_profit_limit_price stop_loss_stop_price : ℚ)
    (stop_loss_limit_price : Option ℚ) (entry_type : String)
    (entry_limit_price : Option ℚ) (time_in_force : String)
    (sdk : Except String SdkOrder) :
    okOrFail (place_bracket_order symbol qty side take_profit_limit_price
      stop_loss_stop_price stop_loss_limit_price entry_type entry_limit_price
      time_in_force sdk).1 := by
  unfold place_bracket_order
  repeat' split
  all_goals first | exact .inl ⟨_, rfl⟩ | exact .inr ⟨_, rfl⟩

theorem place_oco_order_shape (symbol : String) (qty : ℚ) (side : String)
    (take_profit_limit_price stop_loss_stop_price : ℚ)
    (stop_loss_limit_price : Option ℚ) (time_in_force : String)
    (sdk : Except String SdkOrder) :
    okOrFail (place_oco_order symbol qty side take_profit_limit_price
      stop_loss_stop_price stop_loss_limit_price time_in_force sdk).1 := by
  unfold place_oco_order
  repeat' split
  all_goals first | exact .inl ⟨_, rfl⟩ | exact .inr ⟨_, rfl⟩

theorem cancel_order_shape (order_id : String) (sdk : Except String Unit) :
    okOrFail (cancel_order order_id sdk) := by
  unfold cancel_order
  repeat' split
  all_goals first | exact .inl ⟨_, rfl⟩ | exact .inr ⟨_, rfl⟩

theorem close_position_shape (symbol : String) (qty percentage : Option ℚ)
    (sdk : Except String SdkOrder) :
    okOrFail (close_position symbol qty percentage sdk).1 := by
  unfold close_position
  repeat' split
  all_goals first | exact .inl ⟨_, rfl⟩ | exact .inr ⟨_, rfl⟩

theorem close_all_positions_shape (cancel_orders : Bool)
    (sdk : Except String (List CloseAllResult)) :
    okOrFail (close_all_positions cancel_orders sdk) := by
  unfold close_all_positions
  repeat' split
  all_goals first | exact .inl ⟨_, rfl⟩ | exact .inr ⟨_, rfl⟩

theorem get_latest_quotes_shape (symbols : String)
    (sdk : Except String (List (String × SdkQuote))) :
    okOrFail (get_latest_quotes symbols sdk).1 := by
  unfold get_latest_quotes
  repeat' split
  all_goals first | exact .inl ⟨_, rfl⟩ | exact .inr ⟨_, rfl⟩

theorem get_stock_bars_shape (symbols timeframe : String)
    (start end_ : Option String) (limit : ℤ)
    (sdk : Except String (List (String × List SdkBar))) :
    okOrFail (get_stock_bars symbols timeframe start end_ limit sdk).1 := by
  unfold get_stock_bars
  repeat' split
  all_goals first | exact .inl ⟨_, rfl⟩ | exact .inr ⟨_, rfl⟩

theorem get_portfolio_history_shape (period timeframe : String)
    (extended_hours : Bool) (sdk : Except String SdkHistory) :
    okOrFail (get_portfolio_history period timeframe extended_hours sdk) := by
  unfold get_portfolio_history
  repeat' split
  all_goals first | exact .inl ⟨_, rfl⟩ | exact .inr ⟨_, rfl⟩

theorem get_option_contracts_shape (a1 a2 a3 a4 a5 a6 a7 a8 a9 : Option String)
    (limit : ℤ) (sdk : Except String ContractsResponse) :
    okOrFail (get_option_contracts a1 a2 a3 a4 a5 a6 a7 a8 a9 limit sdk).1 := by
  unfold get_option_contracts
  repeat' split
  all_goals first | exact .inl ⟨_, rfl⟩ | exact .inr ⟨_, rfl⟩

theorem get_option_contract_shape (symbol : String)
    (sdk : Except String SingleContractResponse) :
    okOrFail (get_option_contract symbol sdk) := by
  unfold get_option_contract
  repeat' split
  all_goals try exact .inr ⟨_, rfl⟩
  all_goals dsimp only
  all_goals repeat' split
  all_goals first | exact .inl ⟨_, rfl⟩ | exact .inr ⟨_, rfl⟩

theorem get_option_positions_shape (sdk : Except String (List SdkPosition)) :
    okOrFail (get_option_positions sdk) := by
  unfold get_option_positions
  repeat' split
  all_goals first | exact .inl ⟨_, rfl⟩ | exact .inr ⟨_, rfl⟩

theorem submitOptionOrder_shape (order_data : EntryRequest)
    (sdk : Except String SdkOrder) :
    okOrFail (submitOptionOrder order_data sdk).1 := by
  unfold submitOptionOrder
  repeat' split
  all_goals first | exact .inl ⟨_, rfl⟩ | exact .inr ⟨_, rfl⟩

theorem place_option_order_shape (symbol : String) (qty : ℚ)
    (side position_intent order_type : String) (limit_price : Option ℚ)
    (time_in_force : String) (sdk : Except String SdkOrder) :
    okOrFail (place_option_order symbol qty side position_intent order_type
      limit_price time_in_force sdk).1 := by
  unfold place_option_order
  repeat' split
  all_goals
    first
      | exact .inl ⟨_, rfl⟩
      | exact .inr ⟨_, rfl⟩
      | exact submitOptionOrder_shape _ _

theorem submitMultiLegOrder_shape (order_data : EntryRequest)
    (option_legs : List OptionLegRequest) (sdk : Except String SdkOrder) :
    okOrFail (submitMultiLegOrder order_data option_legs sdk).1 := by
  unfold submitMultiLegOrder
  repeat' split
  all_goals first | exact .inl ⟨_, rfl⟩ | exact .inr ⟨_, rfl⟩

theorem place_multi_leg_option_order_shape (legs : List LegInput)
    (order_type : String) (limit_price : Option ℚ) (time_in_force : String)
    (sdk : Except String SdkOrder) :
    okOrFail (place_multi_leg_option_order legs order_type limit_price
      time_in_force sdk).1 := by
  unfold place_multi_leg_option_order
  repeat' split
  all_goals
    first
      | exact .inl ⟨_, rfl⟩
      | exact .inr ⟨_, rfl⟩
      | exact submitMultiLegOrder_shape _ _ _

theorem exercise_option_position_shape (symbol : String) (qty : Option ℚ)
    (sdkPositions : Except String (List SdkPosition))
    (sdkExercise : Except String Unit) :
    okOrFail (exercise_option_position symbol qty sdkPositions sdkExercise) := by
  unfold exercise_option_position
  repeat' split
  all_goals first | exact .inl ⟨_, rfl⟩ | exact .inr ⟨_, rfl⟩

/-! ### SDK exceptions surface as failure envelopes

For tools with pre-SDK validation the hypothesis `(...).2 ≠ none` states that
the SDK client was invoked on this call (the second component records the
submitted request). -/

theorem place_market_order_fail_of_invoked (symbol : String) (qty : ℚ)
    (side time_in_force e : String)
    (h : (place_market_order symbol qty side time_in_force (.error e)).2 ≠ none) :
    failsWith (place_market_order symbol qty side time_in_force (.error e)).1 e := by
  revert h
  unfold place_market_order
  dsimp only
  repeat' split
  all_goals intro h
  all_goals first | exact absurd rfl h | exact failsWith_fail_refl e

theorem place_limit_order_fail_of_invoked (symbol : String) (qty : ℚ)
    (side : String) (limit_price : ℚ) (time_in_force e : String)
    (h : (place_limit_order symbol qty side limit_price time_in_force
      (.error e)).2 ≠ none) :
    failsWith (place_limit_order symbol qty side limit_price time_in_force
      (.error e)).1 e := by
  revert h
  unfold place_limit_order
  dsimp only
  repeat' split
  all_goals intro h
  all_goals first | exact absurd rfl h | exact failsWith_fail_refl e

theorem place_stop_order_fail_of_invoked (symbol : String) (qty : ℚ)
    (side : String) (stop_price : ℚ) (time_in_force e : String)
    (h : (place_stop_order symbol qty side stop_price time_in_force
      (.error e)).2 ≠ none) :
    failsWith (place_stop_order symbol qty side stop_price time_in_force
      (.error e)).1 e := by
  revert h
  unfold place_stop_order
  dsimp only
  repeat' split
  all_goals intro h
  all_goals first | exact absurd rfl h | exact failsWith_fail_refl e

theorem place_stop_limit_order_fail_of_invoked (symbol : String) (qty : ℚ)
    (side : String) (stop_price limit_price : ℚ) (time_in_force e : String)
    (h : (place_stop_limit_order symbol qty side stop_price limit_price
      time_in_force (.error e)).2 ≠ none) :
    failsWith (place_stop_limit_order symbol qty side stop_price limit_price
      time_in_force (.error e)).1 e := by
  revert h
  unfold place_stop_limit_order
  dsimp only
  repeat' split
  all_goals intro h
  all_goals first | exact absurd rfl h | exact failsWith_fail_refl e

theorem place_trailing_stop_order_fail_of_invoked (symbol : String) (qty : ℚ)
    (side : String) (trail_percent trail_price : Option ℚ)
    (time_in_force e : String)
    (h : (place_trailing_stop_order symbol qty side trail_percent trail_price
      time_in_force (.error e)).2 ≠ none) :
    failsWith (place_trailing_stop_order symbol qty side trail_percent
      trail_price time_in_force (.error e)).1 e := by
  revert h
  unfold place_trailing_stop_order
  dsimp only
  repeat' split
  all_goals intro h
  all_goals first | exact absurd rfl h | exact failsWith_fail_refl e

theorem place_bracket_order_fail_of_invoked (symbol : String) (qty : ℚ)
    (side : String) (take_profit_limit_price stop_loss_stop_price : ℚ)
    (stop_loss_limit_price : Option ℚ) (entry_type : String)
    (entry_limit_price : Option ℚ) (time_in_force e : String)
    (h : (place_bracket_order symbol qty side take_profit_limit_price
      stop_loss_stop_price stop_loss_limit_price entry_type entry_limit_price
      time_in_force (.error e)).2 ≠ none) :
    failsWith (place_bracket_order symbol qty side take_profit_limit_price
      stop_loss_stop_price stop_loss_limit_price entry_type entry_limit_price
      time_in_force (.error e)).1 e := by
  revert h
  unfold place_bracket_order
  dsimp only
  repeat' split
  all_goals intro h
  all_goals first | exact absurd rfl h | exact failsWith_fail_refl e

theorem place_oco_order_fail_of_invoked (symbol : String) (qty : ℚ)
    (side : String) (take_profit_limit_price stop_loss_stop_price : ℚ)
    (stop_loss_limit_price : Option ℚ) (time_in_force e : String)
    (h : (place_oco_order symbol qty side take_profit_limit_price
      stop_loss_stop_price stop_loss_limit_price time_in_force
      (.error e)).2 ≠ none) :
    failsWith (place_oco_order symbol qty side take_profit_limit_price
      stop_loss_stop_price stop_loss_limit_price time_in_force
      (.error e)).1 e := by
  revert h
  unfold place_oco_order
  dsimp only
  repeat' split
  all_goals intro h
  all_goals first | exact absurd rfl h | exact failsWith_fail_refl e

theorem close_position_fail_of_invoked (symbol : String)
    (qty percentage : Option ℚ) (e : String)
    (h : (close_position symbol qty percentage (.error e)).2 ≠ none) :
    failsWith (close_position symbol qty percentage (.error e)).1 e := by
  revert h
  unfold close_position
  dsimp only
  repeat' split
  all_goals intro h
  all_goals
    first
      | exact absurd rfl h
      | exact failsWith_fail (containsStr_append_left "Failed to close position: " e)

theorem place_option_order_fail_of_invoked (symbol : String) (qty : ℚ)
    (side position_intent order_type : String) (limit_price : Option ℚ)
    (time_in_force e : String)
    (h : (place_option_order symbol qty side position_intent order_type
      limit_price time_in_force (.error e)).2 ≠ none) :
    failsWith (place_option_order symbol qty side position_intent order_type
      limit_price time_in_force (.error e)).1 e := by
  revert h
  unfold place_option_order submitOptionOrder
  dsimp only
  repeat' split
  all_goals intro h
  all_goals first | exact absurd rfl h | exact failsWith_fail_refl e

theorem place_multi_leg_option_order_fail_of_invoked (legs : List LegInput)
    (order_type : String) (limit_price : Option ℚ) (time_in_force e : String)
    (h : (place_multi_leg_option_order legs order_type limit_price
      time_in_force (.error e)).2 ≠ none) :
    failsWith (place_multi_leg_option_order legs order_type limit_price
      time_in_force (.error e)).1 e := by
  revert h
  unfold place_multi_leg_option_order submitMultiLegOrder
  dsimp only
  repeat' split
  all_goals intro h
  all_goals first | exact absurd rfl h | exact failsWith_fail_refl e

theorem exercise_option_position_fail_on_exercise (symbol : String)
    (qty : Option ℚ) (positions : List SdkPosition) (e : String)
    (h : (positions.find? (fun pos => pos.symbol = symbol)).isSome = true) :
    failsWith (exercise_option_position symbol qty (.ok positions) (.error e)) e := by
  unfold exercise_option_position
  dsimp only
  cases hfind : positions.find? (fun pos => pos.symbol = symbol) with
  | none => rw [hfind] at h; simp at h
  | some option_position => exact failsWith_fail_refl e

/-! ### Concrete values used to instantiate success paths -/

/-- A concrete SDK order object for mock success paths. -/
def mockOrder : SdkOrder :=
  { id := "order-1", symbol := "AAPL", qty := 10, side := "buy",
    order_type := "market", status := "accepted", submitted_at := "t0",
    filled_at := none, filled_qty := none, filled_avg_price := none,
    limit_price := some 5, stop_price := some 170, trail_percent := some 2,
    trail_price := none }

/-- A concrete SDK account object. -/
def mockAccount : SdkAccount :=
  { id := "acct-1", cash := 1000, buying_power := 2000,
    portfolio_value := 3000, equity := 3000, long_market_value := some 2000,
    short_market_value := none, initial_margin := some 100,
    maintenance_margin := none, last_equity := 2900, daytrade_count := some 1 }

/-! ### Claim theorems -/

/-- A call was rejected by positivity validation: failure envelope whose error
contains "greater than 0", and the SDK client was not invoked. -/
def gt0Reject {α β : Type} (r : MCPResponse α × Option β) : Prop :=
  r.1.success = false ∧
    (∃ s, r.1.error = some s ∧ containsStr s "greater than 0") ∧ r.2 = none

theorem gt0Reject_of {α β : Type} {s : String}
    (h : containsStr s "greater than 0") :
    gt0Reject (α := α) (β := β) (fail s, none) := ⟨rfl, ⟨s, rfl, h⟩, rfl⟩

/-- C1 counterexample: the claim includes `place_option_order` among the
order-placement tools, but that tool performs no positivity validation: with
`qty = -1` it returns `success=true` (under a normally returning SDK) and the
SDK client is invoked (the second component is `some` request), contradicting
both required outcomes. -/
theorem C1_counterexample :
    (place_option_order "AAPL240119C00175000" (-1) "buy" "buy_to_open"
      "market" none "gtc" (.ok mockOrder)).1.success = true ∧
    (place_option_order "AAPL240119C00175000" (-1) "buy" "buy_to_open"
      "market" none "gtc" (.ok mockOrder)).2.isSome = true := by
  constructor <;> decide

/-- C1 (amended): for the seven stock-order tools (`place_market_order`,
`place_limit_order`, `place_stop_order`, `place_stop_limit_order`,
`place_trailing_stop_order`, `place_bracket_order`, `place_oco_order`), every
invocation in which a supplied quantity or price field is non-positive
returns `success=false` with an error containing "greater than 0" and never
invokes the SDK client; the two option-order tools (`place_option_order`,
`place_multi_leg_option_order`) perform no positivity validation and invoke
the SDK client regardless of the sign of the submitted quantities. -/
theorem C1_nonpositive_rejected_except_option_tools :
    (∀ (symbol : String) (qty : ℚ) (side tif : String) sdk, qty ≤ 0 →
      gt0Reject (place_market_order symbol qty side tif sdk)) ∧
    (∀ (symbol : String) (qty : ℚ) (side : String) (lp : ℚ) (tif : String) sdk,
      qty ≤ 0 ∨ lp ≤ 0 →
      gt0Reject (place_limit_order symbol qty side lp tif sdk)) ∧
    (∀ (symbol : String) (qty : ℚ) (side : String) (sp : ℚ) (tif : String) sdk,
      qty ≤ 0 ∨ sp ≤ 0 →
      gt0Reject (place_stop_order symbol qty side sp tif sdk)) ∧
    (∀ (symbol : String) (qty : ℚ) (side : String) (sp lp : ℚ) (tif : String) sdk,
      qty ≤ 0 ∨ sp ≤ 0 ∨ lp ≤ 0 →
      gt0Reject (place_stop_limit_order symbol qty side sp lp tif sdk)) ∧
    (∀ (symbol : String) (qty : ℚ) (side : String) (tpc tpr : Option ℚ)
      (tif : String) sdk,
      qty ≤ 0 ∨ (∃ v, tpc = some v ∧ v ≤ 0) ∨ (∃ v, tpr = some v ∧ v ≤ 0) →
      gt0Reject (place_trailing_stop_order symbol qty side tpc tpr tif sdk)) ∧
    (∀ (symbol : String) (qty : ℚ) (side : String) (tp sl : ℚ)
      (slp : Option ℚ) (et : String) (elp : Option ℚ) (tif : String) sdk,
      qty ≤ 0 ∨ tp ≤ 0 ∨ sl ≤ 0 ∨ (∃ v, elp = some v ∧ v ≤ 0) ∨
        (∃ v, slp = some v ∧ v ≤ 0) →
      gt0Reject (place_bracket_order symbol qty side tp sl slp et elp tif sdk)) ∧
    (∀ (symbol : String) (qty : ℚ) (side : String) (tp sl : ℚ)
      (slp : Option ℚ) (tif : String) sdk,
      qty ≤ 0 ∨ tp ≤ 0 ∨ sl ≤ 0 ∨ (∃ v, slp = some v ∧ v ≤ 0) →
      gt0Reject (place_oco_order symbol qty side tp sl slp tif sdk)) ∧
    (∀ (symbol : String) (qty : ℚ) (side tif : String) sdk,
      (place_option_order symbol qty side "buy_to_open" "market" none tif
        sdk).2.isSome = true) ∧
    (∀ (sym : String) (rq : ℚ) (side tif : String) sdk,
      (place_multi_leg_option_order
        [{ symbol := sym, ratio_qty := rq, side := side,
           position_intent := "buy_to_open" }] "market" none tif
        sdk).2.isSome = true) := by
  refine ⟨?_, ?_, ?_, ?_, ?_, ?_, ?_, ?_, ?_⟩
  · intro symbol qty side tif sdk h
    unfold place_market_order
    cases hv : validate_order_params (some qty) none none none with
    | some s => exact gt0Reject_of (validate_order_params_contains_gt0 hv)
    | none =>
      rw [validate_order_params_eq_none_iff] at hv
      rw [isNonpos_some_of_nonpos h] at hv
      exact absurd hv.1 (by simp)
  · intro symbol qty side lp tif sdk h
    unfold place_limit_order
    cases hv : validate_order_params (some qty) (some lp) none none with
    | some s => exact gt0Reject_of (validate_order_params_contains_gt0 hv)
    | none =>
      rw [validate_order_params_eq_none_iff] at hv
      rcases h with h | h
      · rw [isNonpos_some_of_nonpos h] at hv; exact absurd hv.1 (by simp)
      · rw [isNonpos_some_of_nonpos h] at hv; exact absurd hv.2.1 (by simp)
  · intro symbol qty side sp tif sdk h
    unfold place_stop_order
    cases hv : validate_order_params (some qty) none (some sp) none with
    | some s => exact gt0Reject_of (validate_order_params_contains_gt0 hv)
    | none =>
      rw [validate_order_params_eq_none_iff] at hv
      rcases h with h | h
      · rw [isNonpos_some_of_nonpos h] at hv; exact absurd hv.1 (by simp)
      · rw [isNonpos_some_of_nonpos h] at hv; exact absurd hv.2.2.1 (by simp)
  · intro symbol qty side sp lp tif sdk h
    unfold place_stop_limit_order
    cases hv : validate_order_params (some qty) (some lp) (some sp) none with
    | some s => exact gt0Reject_of (validate_order_params_contains_gt0 hv)
    | none =>
      rw [validate_order_params_eq_none_iff] at hv
      rcases h with h | h | h
      · rw [isNonpos_some_of_nonpos h] at hv; exact absurd hv.1 (by simp)
      · rw [isNonpos_some_of_nonpos h] at hv; exact absurd hv.2.2.1 (by simp)
      · rw [isNonpos_some_of_nonpos h] at hv; exact absurd hv.2.1 (by simp)
  · intro symbol qty side tpc tpr tif sdk h
    unfold place_trailing_stop_order
    cases hv : validate_order_params (some qty) none none tpr with
    | some s => exact gt0Reject_of (validate_order_params_contains_gt0 hv)
    | none =>
      rw [validate_order_params_eq_none_iff] at hv
      rcases h with h | ⟨v, hveq, hvle⟩ | ⟨v, hveq, hvle⟩
      · rw [isNonpos_some_of_nonpos h] at hv; exact absurd hv.1 (by simp)
      · subst hveq
        rw [isNonpos_some_of_nonpos hvle]
        exact gt0Reject_of ⟨"Trail percent must be ", "", by decide⟩
      · subst hveq
        rw [isNonpos_some_of_nonpos hvle] at hv
        exact absurd hv.2.2.2 (by simp)
  · intro symbol qty side tp sl slp et elp tif sdk h
    unfold place_bracket_order
    cases hv : validate_order_params (some qty) elp (some sl) none with
    | some s => exact gt0Reject_of (validate_order_params_contains_gt0 hv)
    | none =>
      rw [validate_order_params_eq_none_iff] at hv
      rcases h with h | h | h | ⟨v, hveq, hvle⟩ | ⟨v, hveq, hvle⟩
      · rw [isNonpos_some_of_nonpos h] at hv; exact absurd hv.1 (by simp)
      · rw [if_pos h]
        exact gt0Reject_of ⟨"Take profit limit price must be ", "", by decide⟩
      · rw [isNonpos_some_of_nonpos h] at hv; exact absurd hv.2.2.1 (by simp)
      · subst hveq
        rw [isNonpos_some_of_nonpos hvle] at hv
        exact absurd hv.2.1 (by simp)
      · subst hveq
        by_cases htp : tp ≤ 0
        · rw [if_pos htp]
          exact gt0Reject_of ⟨"Take profit limit price must be ", "", by decide⟩
        · rw [if_neg htp, isNonpos_some_of_nonpos hvle]
          exact gt0Reject_of ⟨"Stop loss limit price must be ", "", by decide⟩
  · intro symbol qty side tp sl slp tif sdk h
    unfold place_oco_order
    cases hv : validate_order_params (some qty) none (some sl) none with
    | some s => exact gt0Reject_of (validate_order_params_contains_gt0 hv)
    | none =>
      rw [validate_order_params_eq_none_iff] at hv
      rcases h with h | h | h | ⟨v, hveq, hvle⟩
      · rw [isNonpos_some_of_nonpos h] at hv; exact absurd hv.1 (by simp)
      · rw [if_pos h]
        exact gt0Reject_of ⟨"Take profit limit price must be ", "", by decide⟩
      · rw [isNonpos_some_of_nonpos h] at hv; exact absurd hv.2.2.1 (by simp)
      · subst hveq
        by_cases htp : tp ≤ 0
        · rw [if_pos htp]
          exact gt0Reject_of ⟨"Take profit limit price must be ", "", by decide⟩
        · rw [if_neg htp, isNonpos_some_of_nonpos hvle]
          exact gt0Reject_of ⟨"Stop loss limit price must be ", "", by decide⟩
  · intro symbol qty side tif sdk
    unfold place_option_order submitOptionOrder
    cases sdk <;> rfl
  · intro sym rq side tif sdk
    unfold place_multi_leg_option_order submitMultiLegOrder buildLegs
    cases sdk <;> rfl

/-- C1 witness: concrete instantiations of each validated tool at a
non-positive field, and of the two unvalidated option tools at a negative
quantity. -/
theorem C1_witness :
    gt0Reject (place_market_order "AAPL" 0 "buy" "gtc" (.ok mockOrder)) ∧
    gt0Reject (place_limit_order "AAPL" 1 "buy" (-5) "gtc" (.ok mockOrder)) ∧
    gt0Reject (place_stop_order "AAPL" 1 "sell" 0 "gtc" (.ok mockOrder)) ∧
    gt0Reject (place_stop_limit_order "AAPL" 1 "sell" (-1) 5 "gtc" (.ok mockOrder)) ∧
    gt0Reject (place_trailing_stop_order "AAPL" 1 "sell" (some (-2)) none "gtc"
      (.ok mockOrder)) ∧
    gt0Reject (place_bracket_order "AAPL" 1 "buy" 0 170 none "market" none "gtc"
      (.ok mockOrder)) ∧
    gt0Reject (place_oco_order "AAPL" 1 "sell" 180 170 (some (-1)) "gtc"
      (.ok mockOrder)) ∧
    (place_option_order "AAPL240119C00175000" (-1) "buy" "buy_to_open" "market"
      none "gtc" (.error "boom")).2.isSome = true ∧
    (place_multi_leg_option_order
      [{ symbol := "AAPL240119C00175000", ratio_qty := -1, side := "buy",
         position_intent := "buy_to_open" }] "market" none "gtc"
      (.error "boom")).2.isSome = true := by
  obtain ⟨h1, h2, h3, h4, h5, h6, h7, h8, h9⟩ :=
    C1_nonpositive_rejected_except_option_tools
  refine ⟨h1 "AAPL" 0 "buy" "gtc" (.ok mockOrder) (by norm_num),
    h2 "AAPL" 1 "buy" (-5) "gtc" (.ok mockOrder) (Or.inr (by norm_num)),
    h3 "AAPL" 1 "sell" 0 "gtc" (.ok mockOrder) (Or.inr (by norm_num)),
    h4 "AAPL" 1 "sell" (-1) 5 "gtc" (.ok mockOrder)
      (Or.inr (Or.inl (by norm_num))),
    h5 "AAPL" 1 "sell" (some (-2)) none "gtc" (.ok mockOrder)
      (Or.inr (Or.inl ⟨-2, rfl, by norm_num⟩)),
    h6 "AAPL" 1 "buy" 0 170 none "market" none "gtc" (.ok mockOrder)
      (Or.inr (Or.inl (by norm_num))),
    h7 "AAPL" 1 "sell" 180 170 (some (-1)) "gtc" (.ok mockOrder)
      (Or.inr (Or.inr (Or.inr ⟨-1, rfl, by norm_num⟩))),
    h8 "AAPL240119C00175000" (-1) "buy" "gtc" (.error "boom"),
    h9 "AAPL240119C00175000" (-1) "buy" "gtc" (.error "boom")⟩

/-- A concrete SDK position object (an option position). -/
def mockPosition : SdkPosition :=
  { symbol := "AAPL240119C00175000", qty := 10, side := "long",
    market_value := 1500, cost_basis := 1000, unrealized_pl := 500,
    unrealized_plpc := 1/2, current_price := some 15,
    qty_available := some 10, asset_class := some "us_option" }

/-- C2: for every tool, an exception raised by the underlying SDK call inside
the tool body (modelled by the SDK outcome `.error e`) surfaces as a
`success=false` envelope whose error string contains the exception's message
text `e`, and the exception does not propagate (each embedded tool is a total
function into envelopes).  For tools with pre-SDK validation the hypothesis
`(...).2 ≠ none` restricts to the invocations on which the SDK client was
actually invoked; `exercise_option_position` makes two SDK calls and has one
conjunct for each. -/
theorem C2_sdk_exceptions_surface :
    (∀ e, failsWith (get_account_info (.error e)) e) ∧
    (∀ e, failsWith (get_positions (.error e)) e) ∧
    (∀ status limit symbols e,
      failsWith (get_orders status limit symbols (.error e)).1 e) ∧
    (∀ order_id e, failsWith (get_order order_id (.error e)) e) ∧
    (∀ symbol qty side tif e,
      (place_market_order symbol qty side tif (.error e)).2 ≠ none →
      failsWith (place_market_order symbol qty side tif (.error e)).1 e) ∧
    (∀ symbol qty side lp tif e,
      (place_limit_order symbol qty side lp tif (.error e)).2 ≠ none →
      failsWith (place_limit_order symbol qty side lp tif (.error e)).1 e) ∧
    (∀ symbol qty side sp tif e,
      (place_stop_order symbol qty side sp tif (.error e)).2 ≠ none →
      failsWith (place_stop_order symbol qty side sp tif (.error e)).1 e) ∧
    (∀ symbol qty side sp lp tif e,
      (place_stop_limit_order symbol qty side sp lp tif (.error e)).2 ≠ none →
      failsWith (place_stop_limit_order symbol qty side sp lp tif (.error e)).1 e) ∧
    (∀ symbol qty side tpc tpr tif e,
      (place_trailing_stop_order symbol qty side tpc tpr tif (.error e)).2 ≠ none →
      failsWith (place_trailing_stop_order symbol qty side tpc tpr tif (.error e)).1 e) ∧
    (∀ symbol qty side tp sl slp et elp tif e,
      (place_bracket_order symbol qty side tp sl slp et elp tif (.error e)).2 ≠ none →
      failsWith (place_bracket_order symbol qty side tp sl slp et elp tif (.error e)).1 e) ∧
    (∀ symbol qty side tp sl slp tif e,
      (place_oco_order symbol qty side tp sl slp tif (.error e)).2 ≠ none →
      failsWith (place_oco_order symbol qty side tp sl slp tif (.error e)).1 e) ∧
    (∀ order_id e, failsWith (cancel_order order_id (.error e)) e) ∧
    (∀ symbol qty percentage e,
      (close_position symbol qty percentage (.error e)).2 ≠ none →
      failsWith (close_position symbol qty percentage (.error e)).1 e) ∧
    (∀ co e, failsWith (close_all_positions co (.error e)) e) ∧
    (∀ symbols e, failsWith (get_latest_quotes symbols (.error e)).1 e) ∧
    (∀ symbols timeframe start end_ limit e,
      failsWith (get_stock_bars symbols timeframe start end_ limit (.error e)).1 e) ∧
    (∀ period timeframe eh e,
      failsWith (get_portfolio_history period timeframe eh (.error e)) e) ∧
    (∀ a1 a2 a3 a4 a5 a6 a7 a8 a9 limit e,
      failsWith (get_option_contracts a1 a2 a3 a4 a5 a6 a7 a8 a9 limit (.error e)).1 e) ∧
    (∀ symbol e, failsWith (get_option_contract symbol (.error e)) e) ∧
    (∀ e, failsWith (get_option_positions (.error e)) e) ∧
    (∀ symbol qty side pi ot lp tif e,
      (place_option_order symbol qty side pi ot lp tif (.error e)).2 ≠ none →
      failsWith (place_option_order symbol qty side pi ot lp tif (.error e)).1 e) ∧
    (∀ legs ot lp tif e,
      (place_multi_leg_option_order legs ot lp tif (.error e)).2 ≠ none →
      failsWith (place_multi_leg_option_order legs ot lp tif (.error e)).1 e) ∧
    (∀ symbol qty sdk2 e,
      failsWith (exercise_option_position symbol qty (.error e) sdk2) e) ∧
    (∀ symbol qty positions e,
      (positions.find? (fun pos => pos.symbol = symbol)).isSome = true →
      failsWith (exercise_option_position symbol qty (.ok positions) (.error e)) e) := by
  refine ⟨fun e => failsWith_fail_refl e,
    fun e => failsWith_fail_refl e,
    fun _ _ _ e => failsWith_fail_refl e,
    fun _ e => failsWith_fail (containsStr_append_left "Order not found or error: " e),
    fun s q sd t e => place_market_order_fail_of_invoked s q sd t e,
    fun s q sd l t e => place_limit_order_fail_of_invoked s q sd l t e,
    fun s q sd sp t e => place_stop_order_fail_of_invoked s q sd sp t e,
    fun s q sd sp l t e => place_stop_limit_order_fail_of_invoked s q sd sp l t e,
    fun s q sd tc tr t e => place_trailing_stop_order_fail_of_invoked s q sd tc tr t e,
    fun s q sd tp sl sp et el t e =>
      place_bracket_order_fail_of_invoked s q sd tp sl sp et el t e,
    fun s q sd tp sl sp t e => place_oco_order_fail_of_invoked s q sd tp sl sp t e,
    fun _ e => failsWith_fail_refl e,
    fun s q p e => close_position_fail_of_invoked s q p e,
    fun _ e => failsWith_fail (containsStr_append_left "Failed to close all positions: " e),
    fun _ e => failsWith_fail_refl e,
    fun _ _ _ _ _ e => failsWith_fail_refl e,
    fun _ _ _ e => failsWith_fail_refl e,
    fun _ _ _ _ _ _ _ _ _ _ e => failsWith_fail_refl e,
    fun _ e => failsWith_fail_refl e,
    fun e => failsWith_fail_refl e,
    fun s q sd pi ot l t e => place_option_order_fail_of_invoked s q sd pi ot l t e,
    fun l ot lp t e => place_multi_leg_option_order_fail_of_invoked l ot lp t e,
    fun _ _ _ e => failsWith_fail_refl e,
    fun s q ps e h => exercise_option_position_fail_on_exercise s q ps e h⟩

/-- C2 witness: each conjunct with a hypothesis, applied at a concrete
invocation whose SDK call raises `"API Error"`. -/
theorem C2_witness :
    failsWith (place_market_order "AAPL" 1 "buy" "gtc" (.error "API Error")).1
      "API Error" ∧
    failsWith (place_limit_order "AAPL" 1 "buy" 5 "gtc" (.error "API Error")).1
      "API Error" ∧
    failsWith (place_stop_order "AAPL" 1 "sell" 170 "gtc" (.error "API Error")).1
      "API Error" ∧
    failsWith (place_stop_limit_order "AAPL" 1 "sell" 170 169 "gtc"
      (.error "API Error")).1 "API Error" ∧
    failsWith (place_trailing_stop_order "AAPL" 1 "sell" (some 2) none "gtc"
      (.error "API Error")).1 "API Error" ∧
    failsWith (place_bracket_order "AAPL" 1 "buy" 180 170 none "market" none
      "gtc" (.error "API Error")).1 "API Error" ∧
    failsWith (place_oco_order "AAPL" 1 "sell" 180 170 none "gtc"
      (.error "API Error")).1 "API Error" ∧
    failsWith (close_position "AAPL" none none (.error "API Error")).1
      "API Error" ∧
    failsWith (place_option_order "AAPL240119C00175000" 1 "buy" "buy_to_open"
      "market" none "gtc" (.error "API Error")).1 "API Error" ∧
    failsWith (place_multi_leg_option_order
      [{ symbol := "AAPL240119C00175000", ratio_qty := 1, side := "buy",
         position_intent := "buy_to_open" }] "market" none "gtc"
      (.error "API Error")).1 "API Error" ∧
    failsWith (exercise_option_position "AAPL240119C00175000" none
      (.ok [mockPosition]) (.error "API Error")) "API Error" := by
  obtain ⟨-, -, -, -, c5, c6, c7, c8, c9, c10, c11, -, c13, -, -, -, -, -, -, -,
    c21, c22, -, c24⟩ := C2_sdk_exceptions_surface
  exact ⟨c5 "AAPL" 1 "buy" "gtc" "API Error" (by decide),
    c6 "AAPL" 1 "buy" 5 "gtc" "API Error" (by decide),
    c7 "AAPL" 1 "sell" 170 "gtc" "API Error" (by decide),
    c8 "AAPL" 1 "sell" 170 169 "gtc" "API Error" (by decide),
    c9 "AAPL" 1 "sell" (some 2) none "gtc" "API Error" (by decide),
    c10 "AAPL" 1 "buy" 180 170 none "market" none "gtc" "API Error" (by decide),
    c11 "AAPL" 1 "sell" 180 170 none "gtc" "API Error" (by decide),
    c13 "AAPL" none none "API Error" (by decide),
    c21 "AAPL240119C00175000" 1 "buy" "buy_to_open" "market" none "gtc"
      "API Error" (by decide),
    c22 [{ symbol := "AAPL240119C00175000", ratio_qty := 1, side := "buy",
           position_intent := "buy_to_open" }] "market" none "gtc" "API Error"
      (by decide),
    c24 "AAPL240119C00175000" none [mockPosition] "API Error" (by decide)⟩

/-- C3 counterexample: when the SDK raises an exception whose message text is
empty, `get_account_info` returns `success=false` with `error` set to the
empty string, so the "error field is a non-empty string" part of the claim
fails on the code. -/
theorem C3_counterexample :
    (get_account_info (.error "")).success = false ∧
    (get_account_info (.error "")).error = some "" := ⟨rfl, rfl⟩

/-- The success/error pairing of the envelope invariant:
`success=true` implies the payload is present and the error absent;
`success=false` implies the error field is present and the payload absent. -/
def envelopeInvariant {α : Type} (r : MCPResponse α) : Prop :=
  (r.success = true → r.data.isSome = true ∧ r.error = none) ∧
  (r.success = false → r.data = none ∧ ∃ e, r.error = some e)

/-- C3 (amended): every tool invocation returns exactly one envelope (each
embedded tool is a total function into envelopes), `success=true` implies the
payload is present and the error field absent, and `success=false` implies
the error field is present and the payload absent; the error string is not in
general non-empty — it is the empty string when the caught exception's own
message text is empty (see the counterexample). -/
theorem C3_envelope_invariant :
    (∀ sdk, envelopeInvariant (get_account_info sdk)) ∧
    (∀ sdk, envelopeInvariant (get_positions sdk)) ∧
    (∀ status limit symbols sdk,
      envelopeInvariant (get_orders status limit symbols sdk).1) ∧
    (∀ order_id sdk, envelopeInvariant (get_order order_id sdk)) ∧
    (∀ symbol qty side tif sdk,
      envelopeInvariant (place_market_order symbol qty side tif sdk).1) ∧
    (∀ symbol qty side lp tif sdk,
      envelopeInvariant (place_limit_order symbol qty side lp tif sdk).1) ∧
    (∀ symbol qty side sp tif sdk,
      envelopeInvariant (place_stop_order symbol qty side sp tif sdk).1) ∧
    (∀ symbol qty side sp lp tif sdk,
      envelopeInvariant (place_stop_limit_order symbol qty side sp lp tif sdk).1) ∧
    (∀ symbol qty side tpc tpr tif sdk,
      envelopeInvariant (place_trailing_stop_order symbol qty side tpc tpr tif sdk).1) ∧
    (∀ symbol qty side tp sl slp et elp tif sdk,
      envelopeInvariant (place_bracket_order symbol qty side tp sl slp et elp tif sdk).1) ∧
    (∀ symbol qty side tp sl slp tif sdk,
      envelopeInvariant (place_oco_order symbol qty side tp sl slp tif sdk).1) ∧
    (∀ order_id sdk, envelopeInvariant (cancel_order order_id sdk)) ∧
    (∀ symbol qty percentage sdk,
      envelopeInvariant (close_position symbol qty percentage sdk).1) ∧
    (∀ co sdk, envelopeInvariant (close_all_positions co sdk)) ∧
    (∀ symbols sdk, envelopeInvariant (get_latest_quotes symbols sdk).1) ∧
    (∀ symbols timeframe start end_ limit sdk,
      envelopeInvariant (get_stock_bars symbols timeframe start end_ limit sdk).1) ∧
    (∀ period timeframe eh sdk,
      envelopeInvariant (get_portfolio_history period timeframe eh sdk)) ∧
    (∀ a1 a2 a3 a4 a5 a6 a7 a8 a9 limit sdk,
      envelopeInvariant (get_option_contracts a1 a2 a3 a4 a5 a6 a7 a8 a9 limit sdk).1) ∧
    (∀ symbol sdk, envelopeInvariant (get_option_contract symbol sdk)) ∧
    (∀ sdk, envelopeInvariant (get_option_positions sdk)) ∧
    (∀ symbol qty side pi ot lp tif sdk,
      envelopeInvariant (place_option_order symbol qty side pi ot lp tif sdk).1) ∧
    (∀ legs ot lp tif sdk,
      envelopeInvariant (place_multi_leg_option_order legs ot lp tif sdk).1) ∧
    (∀ symbol qty sdk1 sdk2,
      envelopeInvariant (exercise_option_position symbol qty sdk1 sdk2)) :=
  ⟨fun sdk => envelope_pairing (get_account_info_shape sdk),
   fun sdk => envelope_pairing (get_positions_shape sdk),
   fun a b c sdk => envelope_pairing (get_orders_shape a b c sdk),
   fun a sdk => envelope_pairing (get_order_shape a sdk),
   fun a b c d sdk => envelope_pairing (place_market_order_shape a b c d sdk),
   fun a b c d f sdk => envelope_pairing (place_limit_order_shape a b c d f sdk),
   fun a b c d f sdk => envelope_pairing (place_stop_order_shape a b c d f sdk),
   fun a b c d f g sdk =>
     envelope_pairing (place_stop_limit_order_shape a b c d f g sdk),
   fun a b c d f g sdk =>
     envelope_pairing (place_trailing_stop_order_shape a b c d f g sdk),
   fun a b c d f g i j k sdk =>
     envelope_pairing (place_bracket_order_shape a b c d f g i j k sdk),
   fun a b c d f g i sdk =>
     envelope_pairing (place_oco_order_shape a b c d f g i sdk),
   fun a sdk => envelope_pairing (cancel_order_shape a sdk),
   fun a b c sdk => envelope_pairing (close_position_shape a b c sdk),
   fun a sdk => envelope_pairing (close_all_positions_shape a sdk),
   fun a sdk => envelope_pairing (get_latest_quotes_shape a sdk),
   fun a b c d f sdk => envelope_pairing (get_stock_bars_shape a b c d f sdk),
   fun a b c sdk => envelope_pairing (get_portfolio_history_shape a b c sdk),
   fun a1 a2 a3 a4 a5 a6 a7 a8 a9 l sdk =>
     envelope_pairing (get_option_contracts_shape a1 a2 a3 a4 a5 a6 a7 a8 a9 l sdk),
   fun a sdk => envelope_pairing (get_option_contract_shape a sdk),
   fun sdk => envelope_pairing (get_option_positions_shape sdk),
   fun a b c d f g i sdk =>
     envelope_pairing (place_option_order_shape a b c d f g i sdk),
   fun a b c d sdk =>
     envelope_pairing (place_multi_leg_option_order_shape a b c d sdk),
   fun a b sdk1 sdk2 =>
     envelope_pairing (exercise_option_position_shape a b sdk1 sdk2)⟩

/-- C3 witness: both implications of the invariant instantiated at concrete
invocations (a success path, an SDK failure path, and a validation failure
path). -/
theorem C3_witness :
    ((get_account_info (.ok mockAccount)).data.isSome = true ∧
      (get_account_info (.ok mockAccount)).error = none) ∧
    ((get_account_info (.error "boom")).data = none ∧
      ∃ e, (get_account_info (.error "boom")).error = some e) ∧
    ((place_market_order "AAPL" 0 "buy" "gtc" (.ok mockOrder)).1.data = none ∧
      ∃ e, (place_market_order "AAPL" 0 "buy" "gtc" (.ok mockOrder)).1.error =
        some e) := by
  obtain ⟨c1, -, -, -, c5, -⟩ := C3_envelope_invariant
  exact ⟨(c1 (.ok mockAccount)).1 (by decide),
    (c1 (.error "boom")).2 (by decide),
    (c5 "AAPL" 0 "buy" "gtc" (.ok mockOrder)).2 (by decide)⟩

/-- The legs built by the `place_multi_leg_option_order` loop carry exactly
the side mapping `sideFromString` applied to each input leg's side string. -/
theorem buildLegs_sides (legs : List LegInput) (i : ℕ)
    (ls : List OptionLegRequest) (h : buildLegs legs i = .ok ls) :
    ls.map OptionLegRequest.side =
      legs.map (fun leg => sideFromString leg.side) := by
  induction legs generalizing i ls with
  | nil =>
    unfold buildLegs at h
    injection h with h
    subst h
    rfl
  | cons leg rest ih =>
    unfold buildLegs at h
    cases hpi : POSITION_INTENT_MAP (pyLower leg.position_intent) with
    | none => rw [hpi] at h; exact Except.noConfusion h
    | some intent =>
      rw [hpi] at h
      dsimp only at h
      cases hrec : buildLegs rest (i + 1) with
      | error e => rw [hrec] at h; exact Except.noConfusion h
      | ok tail =>
        rw [hrec] at h
        dsimp only at h
        injection h with h
        subst h
        simp [ih (i + 1) tail hrec]

/-- C4: in every order-placement tool the order side submitted to the SDK is
`BUY` exactly when the supplied side string, lowercased, equals `"buy"`, and
`SELL` for every other string (no side string is ever rejected: the mapping
is total); the sole exception is the order-level side of
`place_multi_leg_option_order`, which is fixed to `BUY`, while its per-leg
sides follow the same mapping. -/
theorem C4_side_mapping :
    (∀ s, sideFromString s = OrderSide.buy ↔ pyLower s = "buy") ∧
    (∀ s, sideFromString s = OrderSide.sell ↔ pyLower s ≠ "buy") ∧
    (∀ symbol qty side tif sdk,
      (place_market_order symbol qty side tif sdk).2.map
          MarketOrderRequest.side =
        (place_market_order symbol qty side tif sdk).2.map
          (fun _ => sideFromString side)) ∧
    (∀ symbol qty side lp tif sdk,
      (place_limit_order symbol qty side lp tif sdk).2.map
          LimitOrderRequest.side =
        (place_limit_order symbol qty side lp tif sdk).2.map
          (fun _ => sideFromString side)) ∧
    (∀ symbol qty side sp tif sdk,
      (place_stop_order symbol qty side sp tif sdk).2.map
          StopOrderRequest.side =
        (place_stop_order symbol qty side sp tif sdk).2.map
          (fun _ => sideFromString side)) ∧
    (∀ symbol qty side sp lp tif sdk,
      (place_stop_limit_order symbol qty side sp lp tif sdk).2.map
          StopLimitOrderRequest.side =
        (place_stop_limit_order symbol qty side sp lp tif sdk).2.map
          (fun _ => sideFromString side)) ∧
    (∀ symbol qty side tpc tpr tif sdk,
      (place_trailing_stop_order symbol qty side tpc tpr tif sdk).2.map
          TrailingStopOrderRequest.side =
        (place_trailing_stop_order symbol qty side tpc tpr tif sdk).2.map
          (fun _ => sideFromString side)) ∧
    (∀ symbol qty side tp sl slp et elp tif sdk,
      (place_bracket_order symbol qty side tp sl slp et elp tif sdk).2.map
          EntryRequest.side =
        (place_bracket_order symbol qty side tp sl slp et elp tif sdk).2.map
          (fun _ => sideFromString side)) ∧
    (∀ symbol qty side tp sl slp tif sdk,
      (place_oco_order symbol qty side tp sl slp tif sdk).2.map
          LimitOrderRequest.side =
        (place_oco_order symbol qty side tp sl slp tif sdk).2.map
          (fun _ => sideFromString side)) ∧
    (∀ symbol qty side pi ot lp tif sdk,
      (place_option_order symbol qty side pi ot lp tif sdk).2.map
          EntryRequest.side =
        (place_option_order symbol qty side pi ot lp tif sdk).2.map
          (fun _ => sideFromString side)) ∧
    (∀ legs ot lp tif sdk,
      (place_multi_leg_option_order legs ot lp tif sdk).2.map
          EntryRequest.side =
        (place_multi_leg_option_order legs ot lp tif sdk).2.map
          (fun _ => OrderSide.buy)) ∧
    (∀ legs i ls, buildLegs legs i = .ok ls →
      ls.map OptionLegRequest.side =
        legs.map (fun leg => sideFromString leg.side)) := by
  refine ⟨?_, ?_, ?_, ?_, ?_, ?_, ?_, ?_, ?_, ?_, ?_, buildLegs_sides⟩
  · intro s; unfold sideFromString; split <;> simp_all
  · intro s; unfold sideFromString; split <;> simp_all
  · intro symbol qty side tif sdk
    unfold place_market_order
    repeat' split
    all_goals rfl
  · intro symbol qty side lp tif sdk
    unfold place_limit_order
    repeat' split
    all_goals rfl
  · intro symbol qty side sp tif sdk
    unfold place_stop_order
    repeat' split
    all_goals rfl
  · intro symbol qty side sp lp tif sdk
    unfold place_stop_limit_order
    repeat' split
    all_goals rfl
  · intro symbol qty side tpc tpr tif sdk
    unfold place_trailing_stop_order
    repeat' split
    all_goals rfl
  · intro symbol qty side tp sl slp et elp tif sdk
    unfold place_bracket_order
    repeat' split
    all_goals rfl
  · intro symbol qty side tp sl slp tif sdk
    unfold place_oco_order
    repeat' split
    all_goals rfl
  · intro symbol qty side pi ot lp tif sdk
    unfold place_option_order submitOptionOrder
    repeat' split
    all_goals rfl
  · intro legs ot lp tif sdk
    unfold place_multi_leg_option_order submitMultiLegOrder
    repeat' split
    all_goals rfl

/-- C4 witness: the leg-building conjunct applied to a concrete leg list with
a non-lowercase sell side. -/
theorem C4_witness :
    ([{ symbol := "AAPL240119C00175000", ratio_qty := 1,
        side := OrderSide.sell, position_intent := PositionIntent.sell_to_open }] :
      List OptionLegRequest).map OptionLegRequest.side =
      ([{ symbol := "AAPL240119C00175000", ratio_qty := 1, side := "SELL",
          position_intent := "sell_to_open" }] : List LegInput).map
        (fun leg => sideFromString leg.side) := by
  obtain ⟨-, -, -, -, -, -, -, -, -, -, -, hlegs⟩ := C4_side_mapping
  exact hlegs
    [{ symbol := "AAPL240119C00175000", ratio_qty := 1, side := "SELL",
       position_intent := "sell_to_open" }] 0
    [{ symbol := "AAPL240119C00175000", ratio_qty := 1,
       side := OrderSide.sell, position_intent := PositionIntent.sell_to_open }]
    (by rfl)

/-- A concrete SDK order whose trailing field is the trail price. -/
def mockOrderPrice : SdkOrder :=
  { mockOrder with trail_percent := none, trail_price := some 3 }

/-- C5: for `place_trailing_stop_order` (under a positive quantity, so that
quantity validation does not pre-empt the check): both trail fields absent
yields one fixed error message; both present (with positive values, so that
positivity validation does not pre-empt the check) yields a different fixed
error message, and the two messages are distinct; exactly one field present
with a positive value yields a submitted request carrying that value, and —
when the SDK result carries the submitted value, as a normal submission
does — the success payload echoes it. -/
theorem C5_trailing_stop_exclusivity :
    (∀ (symbol : String) (qty : ℚ) (side tif : String) sdk, 0 < qty →
      place_trailing_stop_order symbol qty side none none tif sdk =
        (fail "Either trail_percent or trail_price must be provided", none)) ∧
    (∀ (symbol : String) (qty : ℚ) (side : String) (p r : ℚ) (tif : String) sdk,
      0 < qty → 0 < p → 0 < r →
      place_trailing_stop_order symbol qty side (some p) (some r) tif sdk =
        (fail "Only one of trail_percent or trail_price can be provided, not both",
         none)) ∧
    ("Either trail_percent or trail_price must be provided" ≠
      "Only one of trail_percent or trail_price can be provided, not both") ∧
    (∀ (symbol : String) (qty : ℚ) (side : String) (p : ℚ) (tif : String)
      (o : SdkOrder), 0 < qty → 0 < p →
      ∃ req, (place_trailing_stop_order symbol qty side (some p) none tif
          (.ok o)).2 = some req ∧
        req.trail_percent = some p ∧ req.trail_price = none ∧
        (o.trail_percent = some p →
          ∃ d, (place_trailing_stop_order symbol qty side (some p) none tif
              (.ok o)).1.data = some d ∧ d.trail_percent = some p)) ∧
    (∀ (symbol : String) (qty : ℚ) (side : String) (r : ℚ) (tif : String)
      (o : SdkOrder), 0 < qty → 0 < r →
      ∃ req, (place_trailing_stop_order symbol qty side none (some r) tif
          (.ok o)).2 = some req ∧
        req.trail_price = some r ∧ req.trail_percent = none ∧
        (o.trail_price = some r →
          ∃ d, (place_trailing_stop_order symbol qty side none (some r) tif
              (.ok o)).1.data = some d ∧ d.trail_price = some r)) := by
  refine ⟨?_, ?_, by decide, ?_, ?_⟩
  · intro symbol qty side tif sdk hq
    have hv : validate_order_params (some qty) none none none = none :=
      validate_order_params_eq_none_iff.mpr
        ⟨isNonpos_eq_false_of_pos hq, rfl, rfl, rfl⟩
    unfold place_trailing_stop_order
    rw [hv]
    rfl
  · intro symbol qty side p r tif sdk hq hp hr
    have hv : validate_order_params (some qty) none none (some r) = none :=
      validate_order_params_eq_none_iff.mpr
        ⟨isNonpos_eq_false_of_pos hq, rfl, rfl, isNonpos_eq_false_of_pos hr⟩
    unfold place_trailing_stop_order
    rw [hv, isNonpos_eq_false_of_pos hp]
    rfl
  · intro symbol qty side p tif o hq hp
    have hv : validate_order_params (some qty) none none none = none :=
      validate_order_params_eq_none_iff.mpr
        ⟨isNonpos_eq_false_of_pos hq, rfl, rfl, rfl⟩
    unfold place_trailing_stop_order
    rw [hv, isNonpos_eq_false_of_pos hp]
    refine ⟨_, rfl, rfl, rfl, fun he => ⟨_, rfl, ?_⟩⟩
    show truthyFloat o.trail_percent = some p
    rw [he]
    simp [truthyFloat, hp.ne.symm]
  · intro symbol qty side r tif o hq hr
    have hv : validate_order_params (some qty) none none (some r) = none :=
      validate_order_params_eq_none_iff.mpr
        ⟨isNonpos_eq_false_of_pos hq, rfl, rfl, isNonpos_eq_false_of_pos hr⟩
    unfold place_trailing_stop_order
    rw [hv]
    refine ⟨_, rfl, rfl, rfl, fun he => ⟨_, rfl, ?_⟩⟩
    show truthyFloat o.trail_price = some r
    rw [he]
    simp [truthyFloat, hr.ne.symm]

/-- C5 witness: the four hypothesized conjuncts, at a positive quantity and
positive trail values. -/
theorem C5_witness :
    (place_trailing_stop_order "AAPL" 1 "sell" none none "gtc" (.ok mockOrder) =
      (fail "Either trail_percent or trail_price must be provided", none)) ∧
    (place_trailing_stop_order "AAPL" 1 "sell" (some 2) (some 1) "gtc"
        (.ok mockOrder) =
      (fail "Only one of trail_percent or trail_price can be provided, not both",
       none)) ∧
    (∃ req, (place_trailing_stop_order "AAPL" 1 "sell" (some 2) none "gtc"
        (.ok mockOrder)).2 = some req ∧
      req.trail_percent = some 2 ∧ req.trail_price = none ∧
      (mockOrder.trail_percent = some 2 →
        ∃ d, (place_trailing_stop_order "AAPL" 1 "sell" (some 2) none "gtc"
            (.ok mockOrder)).1.data = some d ∧ d.trail_percent = some 2)) ∧
    (∃ req, (place_trailing_stop_order "AAPL" 1 "sell" none (some 3) "gtc"
        (.ok mockOrderPrice)).2 = some req ∧
      req.trail_price = some 3 ∧ req.trail_percent = none ∧
      (mockOrderPrice.trail_price = some 3 →
        ∃ d, (place_trailing_stop_order "AAPL" 1 "sell" none (some 3) "gtc"
            (.ok mockOrderPrice)).1.data = some d ∧ d.trail_price = some 3)) := by
  obtain ⟨c1, c2, -, c4, c5⟩ := C5_trailing_stop_exclusivity
  exact ⟨c1 "AAPL" 1 "sell" "gtc" (.ok mockOrder) (by norm_num),
    c2 "AAPL" 1 "sell" 2 1 "gtc" (.ok mockOrder) (by norm_num) (by norm_num)
      (by norm_num),
    c4 "AAPL" 1 "sell" 2 "gtc" mockOrder (by norm_num) (by norm_num),
    c5 "AAPL" 1 "sell" 3 "gtc" mockOrderPrice (by norm_num) (by norm_num)⟩

/-- C6: `close_position` rejects supplying both `qty` and `percentage` with an
error containing "Only one of", and rejects a percentage outside (0, 100]
(supplied on its own, since the mutual-exclusion check fires first when both
are given) with an error containing "between 0 and 100"; in both cases the
SDK client is not invoked (second component `none`), for every SDK outcome. -/
theorem C6_close_position_validation :
    (∀ (symbol : String) (q p : ℚ) sdk,
      (close_position symbol (some q) (some p) sdk).1.success = false ∧
      (∃ s, (close_position symbol (some q) (some p) sdk).1.error = some s ∧
        containsStr s "Only one of") ∧
      (close_position symbol (some q) (some p) sdk).2 = none) ∧
    (∀ (symbol : String) (p : ℚ) sdk, p ≤ 0 ∨ 100 < p →
      (close_position symbol none (some p) sdk).1.success = false ∧
      (∃ s, (close_position symbol none (some p) sdk).1.error = some s ∧
        containsStr s "between 0 and 100") ∧
      (close_position symbol none (some p) sdk).2 = none) := by
  constructor
  · intro symbol q p sdk
    exact ⟨rfl,
      ⟨_, rfl, ⟨"", " qty or percentage can be provided, not both", by decide⟩⟩,
      rfl⟩
  · intro symbol p sdk h
    unfold close_position
    rw [if_neg (show ¬((none : Option ℚ) ≠ none ∧ some p ≠ none) by simp),
      if_neg (show ¬(isNonpos none = true) by simp [isNonpos]),
      if_pos (show some p ≠ none ∧
          ((some p).getD 0 ≤ 0 ∨ 100 < (some p).getD 0) from
        ⟨by simp, by simpa using h⟩)]
    exact ⟨rfl, ⟨_, rfl, ⟨"Percentage must be ", "", by decide⟩⟩, rfl⟩

/-- C6 witness: both supplied, and a percentage of 150. -/
theorem C6_witness :
    ((close_position "AAPL" (some 10) (some 50) (.ok mockOrder)).1.success =
        false ∧
      (∃ s, (close_position "AAPL" (some 10) (some 50)
          (.ok mockOrder)).1.error = some s ∧ containsStr s "Only one of") ∧
      (close_position "AAPL" (some 10) (some 50) (.ok mockOrder)).2 = none) ∧
    ((close_position "AAPL" none (some 150) (.ok mockOrder)).1.success =
        false ∧
      (∃ s, (close_position "AAPL" none (some 150) (.ok mockOrder)).1.error =
        some s ∧ containsStr s "between 0 and 100") ∧
      (close_position "AAPL" none (some 150) (.ok mockOrder)).2 = none) := by
  obtain ⟨c1, c2⟩ := C6_close_position_validation
  exact ⟨c1 "AAPL" 10 50 (.ok mockOrder),
    c2 "AAPL" 150 (.ok mockOrder) (Or.inr (by norm_num))⟩

/-- The leg-building loop stops at the first unresolvable index: if index `i`
holds an unresolvable position-intent string and all earlier indices resolve,
the loop started at counter `k` reports index `k + i`. -/
theorem buildLegs_error_at_first (legs : List LegInput) (i : ℕ) (leg : LegInput)
    (hget : legs.get? i = some leg)
    (hbad : POSITION_INTENT_MAP (pyLower leg.position_intent) = none)
    (hgood : ∀ j lg, j < i → legs.get? j = some lg →
      POSITION_INTENT_MAP (pyLower lg.position_intent) ≠ none) :
    ∀ k, buildLegs legs k = .error (k + i, leg.position_intent) := by
  induction legs generalizing i with
  | nil => simp at hget
  | cons l rest ih =>
    intro k
    cases i with
    | zero =>
      injection hget with hget
      subst hget
      rw [Nat.add_zero]
      unfold buildLegs
      rw [hbad]
    | succ i2 =>
      have hl : POSITION_INTENT_MAP (pyLower l.position_intent) ≠ none :=
        hgood 0 l (Nat.succ_pos i2) rfl
      have hget2 : rest.get? i2 = some leg := hget
      have hgood2 : ∀ j lg, j < i2 → rest.get? j = some lg →
          POSITION_INTENT_MAP (pyLower lg.position_intent) ≠ none :=
        fun j lg hj hg => hgood (j + 1) lg (Nat.succ_lt_succ hj) hg
      unfold buildLegs
      cases hpi : POSITION_INTENT_MAP (pyLower l.position_intent) with
      | none => exact absurd hpi hl
      | some intent =>
        dsimp only
        rw [ih i2 hget2 hgood2 (k + 1)]
        have harith : k + 1 + i2 = k + (i2 + 1) := by omega
        rw [harith]

/-- C7: whenever `place_multi_leg_option_order` submits a request, its
aggregate quantity is the absolute value of the first leg's `ratio_qty` and
its order-level side is `BUY`; and when leg index `i` is the first one whose
position-intent string does not resolve, the tool fails with an error message
naming that index (and the SDK client is not invoked). -/
theorem C7_multi_leg_aggregate_and_leg_errors :
    (∀ (leg0 : LegInput) rest ot lp tif sdk,
      (place_multi_leg_option_order (leg0 :: rest) ot lp tif sdk).2.map
          EntryRequest.qty =
        (place_multi_leg_option_order (leg0 :: rest) ot lp tif sdk).2.map
          (fun _ => |leg0.ratio_qty|)) ∧
    (∀ (leg0 : LegInput) rest ot lp tif sdk,
      (place_multi_leg_option_order (leg0 :: rest) ot lp tif sdk).2.map
          EntryRequest.side =
        (place_multi_leg_option_order (leg0 :: rest) ot lp tif sdk).2.map
          (fun _ => OrderSide.buy)) ∧
    (∀ legs ot lp tif sdk (i : ℕ) (leg : LegInput),
      legs.get? i = some leg →
      POSITION_INTENT_MAP (pyLower leg.position_intent) = none →
      (∀ j lg, j < i → legs.get? j = some lg →
        POSITION_INTENT_MAP (pyLower lg.position_intent) ≠ none) →
      (place_multi_leg_option_order legs ot lp tif sdk).1.success = false ∧
      (∃ s, (place_multi_leg_option_order legs ot lp tif sdk).1.error = some s ∧
        containsStr s ("leg " ++ toString i)) ∧
      (place_multi_leg_option_order legs ot lp tif sdk).2 = none) := by
  refine ⟨?_, ?_, ?_⟩
  · intro leg0 rest ot lp tif sdk
    unfold place_multi_leg_option_order submitMultiLegOrder
    dsimp only
    repeat' split
    all_goals rfl
  · intro leg0 rest ot lp tif sdk
    unfold place_multi_leg_option_order submitMultiLegOrder
    dsimp only
    repeat' split
    all_goals rfl
  · intro legs ot lp tif sdk i leg hget hbad hgood
    cases legs with
    | nil => simp at hget
    | cons leg0 rest =>
      have hb : buildLegs (leg0 :: rest) 0 = .error (i, leg.position_intent) := by
        have := buildLegs_error_at_first (leg0 :: rest) i leg hget hbad hgood 0
        rwa [Nat.zero_add] at this
      unfold place_multi_leg_option_order
      dsimp only
      rw [hb]
      refine ⟨rfl, ⟨_, rfl, "Invalid position_intent in ",
        ": " ++ leg.position_intent ++
          ". Must be one of: buy_to_open, buy_to_close, sell_to_open, sell_to_close",
        ?_⟩, rfl⟩
      simp only [String.append_assoc]
      rw [(by decide :
        ("Invalid position_intent in leg " : String) =
          "Invalid position_intent in " ++ "leg "),
        String.append_assoc]

/-- C7 witness: a two-leg order whose second leg (index 1) carries an
unresolvable position-intent string. -/
theorem C7_witness :
    (place_multi_leg_option_order
        [{ symbol := "AAPL240119C00175000", ratio_qty := 1, side := "buy",
           position_intent := "buy_to_open" },
         { symbol := "AAPL240119C00180000", ratio_qty := 1, side := "sell",
           position_intent := "invalid" }] "market" none "gtc"
        (.ok mockOrder)).1.success = false ∧
    (∃ s, (place_multi_leg_option_order
        [{ symbol := "AAPL240119C00175000", ratio_qty := 1, side := "buy",
           position_intent := "buy_to_open" },
         { symbol := "AAPL240119C00180000", ratio_qty := 1, side := "sell",
           position_intent := "invalid" }] "market" none "gtc"
        (.ok mockOrder)).1.error = some s ∧
      containsStr s ("leg " ++ toString 1)) ∧
    (place_multi_leg_option_order
        [{ symbol := "AAPL240119C00175000", ratio_qty := 1, side := "buy",
           position_intent := "buy_to_open" },
         { symbol := "AAPL240119C00180000", ratio_qty := 1, side := "sell",
           position_intent := "invalid" }] "market" none "gtc"
        (.ok mockOrder)).2 = none := by
  obtain ⟨-, -, c3⟩ := C7_multi_leg_aggregate_and_leg_errors
  refine c3 _ "market" none "gtc" (.ok mockOrder) 1
    { symbol := "AAPL240119C00180000", ratio_qty := 1, side := "sell",
      position_intent := "invalid" } rfl (by decide) ?_
  intro j lg hj hg
  have hj0 : j = 0 := Nat.lt_one_iff.mp hj
  subst hj0
  injection hg with hg
  subst hg
  decide

/-- C8: the list-returning tools (`get_positions`, `get_orders`,
`get_latest_quotes`, `get_stock_bars`, `get_option_contracts`) return
`success=true` with an empty list payload when the underlying SDK source
yields no items — never an error.  For `get_stock_bars` the source is empty
when every symbol maps to an empty bar list; for `get_option_contracts` when
the dispatched response shape contains no contracts. -/
theorem C8_empty_sources_yield_empty_lists :
    (get_positions (.ok []) = ok []) ∧
    (∀ status limit symbols,
      (get_orders status limit symbols (.ok [])).1 = ok []) ∧
    (∀ symbols, (get_latest_quotes symbols (.ok [])).1 = ok []) ∧
    (∀ symbols timeframe start end_ limit src,
      (∀ p ∈ src, p.2 = ([] : List SdkBar)) →
      (get_stock_bars symbols timeframe start end_ limit (.ok src)).1 = ok []) ∧
    (∀ a1 a2 a3 a4 a5 a6 a7 a8 a9 limit resp,
      contractsOfResponse resp = [] →
      (get_option_contracts a1 a2 a3 a4 a5 a6 a7 a8 a9 limit (.ok resp)).1 =
        ok []) := by
  refine ⟨rfl, fun _ _ _ => rfl, fun _ => rfl, ?_, ?_⟩
  · intro symbols timeframe start end_ limit src h
    have hnil : ∀ (l : List (String × List SdkBar)), (∀ p ∈ l, p.2 = []) →
        l.flatMap (fun p => p.2.map (barOfSdk p.1)) = [] := by
      intro l hl
      induction l with
      | nil => rfl
      | cons a t ih =>
        have ha : a.2 = [] := hl a (List.mem_cons_self a t)
        have ht := ih (fun p hp => hl p (List.mem_cons_of_mem a hp))
        show a.2.map (barOfSdk a.1) ++ t.flatMap (fun p => p.2.map (barOfSdk p.1)) = []
        rw [ha, ht]
        rfl
    unfold get_stock_bars
    dsimp only
    rw [hnil src h]
  · intro a1 a2 a3 a4 a5 a6 a7 a8 a9 limit resp h
    unfold get_option_contracts
    dsimp only
    rw [h]
    rfl

/-- C8 witness: the two hypothesized conjuncts at concrete empty sources (a
bar set whose only symbol has no bars; a contracts response object whose
`option_contracts` list is empty). -/
theorem C8_witness :
    ((get_stock_bars "aapl, msft" "1Day" none none 100
        (.ok [("AAPL", [])])).1 = ok []) ∧
    ((get_option_contracts (some "ZZZZZ") none none none none none none none
        none 100 (.ok (.withAttr []))).1 = ok []) := by
  obtain ⟨-, -, -, c4, c5⟩ := C8_empty_sources_yield_empty_lists
  exact ⟨c4 "aapl, msft" "1Day" none none 100 [("AAPL", [])] (by simp),
    c5 (some "ZZZZZ") none none none none none none none none 100
      (.withAttr []) rfl⟩

/-- C9: the limit forwarded to the SDK by `get_option_contracts` is
`min(limit, 1000)` — the tool's own docstring advertises a maximum of 10000,
but any requested limit above 1000 is silently capped at 1000 (e.g. 5000
becomes 1000). -/
theorem C9_option_contracts_limit_capped :
    (∀ a1 a2 a3 a4 a5 a6 a7 a8 a9 (limit : ℤ) sdk,
      (get_option_contracts a1 a2 a3 a4 a5 a6 a7 a8 a9 limit sdk).2.limit =
        min limit 1000) ∧
    (get_option_contracts none none none none none none none none none 5000
        (.ok (.withAttr []))).2.limit = 1000 := by
  constructor
  · intro a1 a2 a3 a4 a5 a6 a7 a8 a9 limit sdk
    unfold get_option_contracts
    cases sdk <;> rfl
  · decide

/-- C10: whenever the SDK call of `close_all_positions` itself returns
(rather than raising), the tool returns `success=true`, even when entries of
unrecognized shape were counted into `failed_positions` — a positive
`failed_count` never produces a `success=false` envelope. -/
theorem C10_close_all_success_despite_failed_entries :
    (∀ co results, (close_all_positions co (.ok results)).success = true) ∧
    ((close_all_positions false
        (.ok [.bare "AAPL" "o1", .unknown "weird"])).success = true ∧
      ∃ d, (close_all_positions false
          (.ok [.bare "AAPL" "o1", .unknown "weird"])).data = some d ∧
        d.failed_count = 1) := by
  refine ⟨?_, by decide, ?_⟩
  · intro co results
    unfold close_all_positions
    rfl
  · exact ⟨_, rfl, by decide⟩

end AlpacaMCP
